import Mathlib

/-!
Nexell DRM CRTC driver (`drivers/gpu/drm/nexell/nx_drm_crtc.c`).

A shallow embedding of the CRTC driver: the DPMS / commit / mode-set / page-flip
operations, the device-tree driven plane topology, the plane factory and the CRTC
registry set up by `nx_drm_crtc_init`.

Conventions of the embedding

* C `int` values are `Int`; `unsigned int` results are reduced modulo `2 ^ 32`.
* A CRTC object (`struct nx_drm_crtc` with its embedded `struct drm_crtc`) is a value
  that the operations take and return; the device (`struct drm_device` with its
  `nx_drm_priv`) is threaded through every operation in the same way.
* Calls that leave the file (display back end, DRM core, locks) are appended to
  `drm_device.trace`; the status such a call returns is an argument of the operation
  that issues it.
* Memory allocation is assumed to succeed.
-/

namespace NxDrm

/-! ## Constants of the kernel headers -/

/-- Modelled from the spec: `EPERM` of the kernel's errno header, the permission error. -/
def EPERM : Int := 1

/-- Modelled from the spec: `EBUSY` of the kernel's errno header, the busy error. -/
def EBUSY : Int := 16

/-- Modelled from the spec: `EINVAL` of the kernel's errno header. -/
def EINVAL : Int := 22

/-- Modelled from the spec: `MAX_ERRNO` of `linux/err.h`, the largest errno an error
pointer can carry. -/
def MAX_ERRNO : Int := 4095

/-- Modelled from the spec: `IS_ERR` of `linux/err.h` on a pointer read as a signed
integer: the pointer is an error pointer when it lies in `[-MAX_ERRNO, -1]`. -/
def IS_ERR (p : Int) : Bool := decide (-MAX_ERRNO ≤ p ∧ p < 0)

/-- Modelled from the spec: `DRM_MODE_DPMS_ON` of the DRM mode header (ordinal 0). -/
def DRM_MODE_DPMS_ON : Int := 0

/-- Modelled from the spec: `DRM_MODE_DPMS_STANDBY` of the DRM mode header (ordinal 1). -/
def DRM_MODE_DPMS_STANDBY : Int := 1

/-- Modelled from the spec: `DRM_MODE_DPMS_SUSPEND` of the DRM mode header (ordinal 2). -/
def DRM_MODE_DPMS_SUSPEND : Int := 2

/-- Modelled from the spec: `DRM_MODE_DPMS_OFF` of the DRM mode header (ordinal 3). -/
def DRM_MODE_DPMS_OFF : Int := 3

/-- Modelled from the spec: `enum drm_plane_type` of the DRM core header; the first
constructor is the zero value that `devm_kzalloc` leaves in an unwritten slot. -/
inductive drm_plane_type where
  | DRM_PLANE_TYPE_OVERLAY
  | DRM_PLANE_TYPE_PRIMARY
  | DRM_PLANE_TYPE_CURSOR
deriving DecidableEq, Repr

/-- Modelled from the spec: the three plane flags of `soc/s5pxx18_drm_dp.h` (RGB, VIDEO,
UNKNOWN), three distinct constants. -/
inductive plane_flag where
  | PLANE_FLAG_RGB
  | PLANE_FLAG_VIDEO
  | PLANE_FLAG_UNKNOWN
deriving DecidableEq, Repr

open drm_plane_type plane_flag

/-! ## Machine arithmetic -/

/-- The value of the C expression `a - b` for `unsigned int a` and `int b`, stored in an
`unsigned int`: `b` is converted to `unsigned int` and the difference wraps modulo
`2 ^ 32`. -/
def u32_sub (a : Nat) (b : Int) : Int := ((a : Int) - b) % 4294967296

/-- The `int` a `u32` value converts to (two's complement, 32 bits). -/
def u32_to_int (n : Nat) : Int :=
  if n % 4294967296 < 2147483648 then ((n % 4294967296 : Nat) : Int)
  else ((n % 4294967296 : Nat) : Int) - 4294967296

/-- Array store `a[i] = v` on an array read as a function of its index. -/
def arr_set {α : Type} (a : Nat → α) (i : Nat) (v : α) : Nat → α :=
  fun j => if j = i then v else a j

/-- Array store `a[i] = v` for an `int` index. -/
def arr_set_int {α : Type} (a : Int → α) (i : Int) (v : α) : Int → α :=
  fun j => if j = i then v else a j

/-! ## Data model -/

/-- The fields of `struct drm_framebuffer` the driver reads, and an identity. -/
structure drm_framebuffer where
  id : Nat
  width : Nat
  height : Nat
deriving DecidableEq, Repr

/-- The fields of `struct drm_display_mode` kept by the embedding; `mode_set` copies the
whole record. -/
structure drm_display_mode where
  clock : Int
  hdisplay : Int
  vdisplay : Int
deriving DecidableEq, Repr

/-- A `struct drm_pending_vblank_event`: an identity and the `pipe` field the driver
writes. -/
structure drm_pending_vblank_event where
  id : Nat
  pipe : Int
deriving DecidableEq, Repr

/-- The `struct dp_plane_top` embedded in a CRTC. -/
structure dp_plane_top where
  num_planes : Int
  plane_type : Nat → drm_plane_type
  plane_flag : Nat → plane_flag
  video_prior : Int
  primary_plane : Int
  back_color : Nat
  color_key : Nat

/-- The `struct nx_drm_crtc`, with the fields of its embedded `struct drm_crtc` that the
driver uses: `primary_fb` is `crtc->primary->fb`, `x`, `y` and `mode` are `crtc->x`,
`crtc->y` and `crtc->mode`. -/
structure nx_drm_crtc where
  pipe : Int
  pipe_irq : Int
  dpms_mode : Int
  event : Option drm_pending_vblank_event
  top : dp_plane_top
  primary_fb : Option drm_framebuffer
  x : Int
  y : Int
  mode : drm_display_mode

/-- A call that leaves the file, with its arguments. CRTCs are named by their `pipe`,
planes by their CRTC's `pipe` and the slot that created them; `nx_drm_plane_init` also
records the plane it hands back (`none` for an error pointer). `disable_plane` is the
call `plane->funcs->disable_plane(plane)` on the plane with that identity, and
`DRM_ERROR_disable_plane` the error message that reports its non-zero status. -/
inductive Call where
  | mutex_lock
  | mutex_unlock
  | spin_lock_irq
  | spin_unlock_irq
  | nx_drm_dp_crtc_dpms (pipe : Int) (mode : Int)
  | nx_drm_dp_crtc_commit (pipe : Int)
  | nx_drm_dp_crtc_mode_set (pipe : Int) (fb : drm_framebuffer)
      (crtc_x crtc_y crtc_w crtc_h src_x src_y src_w src_h : Int)
  | nx_drm_dp_plane_update (pipe : Int) (fb : drm_framebuffer)
      (crtc_x crtc_y crtc_w crtc_h src_x src_y src_w src_h : Int)
  | drm_vblank_get (pipe : Int)
  | drm_vblank_put (pipe : Int)
  | nx_drm_dp_crtc_init (pipe : Int)
  | nx_drm_plane_init (pipe : Int) (possible_crtcs : Int) (type : drm_plane_type)
      (plane_num : Int) (plane : Option Nat)
  | drm_crtc_init_with_planes (pipe : Int) (primary : Nat)
  | plane_destroy (pipe : Int) (plane : Nat)
  | drm_crtc_helper_add (pipe : Int)
  | drm_crtc_cleanup (pipe : Int)
  | devm_kfree_crtc (handle : Nat)
  | disable_plane (plane : Nat)
  | DRM_ERROR_disable_plane (ret : Int)
deriving DecidableEq, Repr

/-- The `struct nx_drm_priv`: the registry `crtcs` (entries are handles of CRTC objects,
`none` is `NULL`), its counter and the interrupt table. -/
structure nx_drm_priv where
  crtcs : Int → Option Nat
  num_crtcs : Int
  hw_irq_no : Int → Int

/-- The device: the trace of outgoing calls, the vblank reference count of every pipe,
the private data, and the `nx_drm_crtc` objects obtained from `devm_kzalloc` (a handle is
the position in `crtc_objs`; `freed` lists the handles given back with `devm_kfree`). -/
structure drm_device where
  trace : List Call
  vblank_refcount : Int → Int
  priv : nx_drm_priv
  crtc_objs : List nx_drm_crtc
  freed : List Nat

/-- Append one outgoing call to the trace. -/
def drm_device.log (d : drm_device) (c : Call) : drm_device :=
  { d with trace := d.trace ++ [c] }

/-! ## CRTC helper operations -/

/-- The C function `nx_drm_crtc_dpms`. -/
def nx_drm_crtc_dpms (c : nx_drm_crtc) (d : drm_device) (mode : Int) :
    nx_drm_crtc × drm_device :=
  if c.dpms_mode = mode then (c, d)
  else
    let d1 := d.log Call.mutex_lock
    if mode = DRM_MODE_DPMS_ON then
      let c1 := { c with dpms_mode := mode }
      let d2 := d1.log (Call.nx_drm_dp_crtc_dpms c.pipe mode)
      (c1, d2.log Call.mutex_unlock)
    else if mode = DRM_MODE_DPMS_STANDBY ∨ mode = DRM_MODE_DPMS_SUSPEND
        ∨ mode = DRM_MODE_DPMS_OFF then
      let c1 := { c with dpms_mode := mode }
      let d2 := d1.log (Call.nx_drm_dp_crtc_dpms c.pipe mode)
      (c1, d2.log Call.mutex_unlock)
    else
      (c, d1.log Call.mutex_unlock)

/-- The C function `nx_drm_crtc_commit`. -/
def nx_drm_crtc_commit (c : nx_drm_crtc) (d : drm_device) : nx_drm_crtc × drm_device :=
  let r := if c.dpms_mode ≠ DRM_MODE_DPMS_ON then nx_drm_crtc_dpms c d DRM_MODE_DPMS_ON
    else (c, d)
  (r.1, r.2.log (Call.nx_drm_dp_crtc_commit r.1.pipe))

/-- The C function `nx_drm_crtc_mode_set`; `be_ret` is the status the back end's
`nx_drm_dp_crtc_mode_set` returns. The result is `none` when `crtc->primary->fb` is
`NULL` and `fb->width` dereferences it. -/
def nx_drm_crtc_mode_set (c : nx_drm_crtc) (d : drm_device)
    (adjusted_mode : drm_display_mode) (x y : Int) (be_ret : Int) :
    Option (Int × nx_drm_crtc × drm_device) :=
  let c1 := { c with mode := adjusted_mode }
  match c1.primary_fb with
  | none => none
  | some fb =>
    let crtc_w := u32_sub fb.width x
    let crtc_h := u32_sub fb.height y
    some (be_ret, c1,
      d.log (Call.nx_drm_dp_crtc_mode_set c1.pipe fb 0 0 crtc_w crtc_h x y crtc_w crtc_h))

/-- The C function `nx_drm_crtc_mode_set_base`; `be_ret` is the status the back end's
`nx_drm_dp_plane_update` returns. The result is `none` when `crtc->primary->fb` is `NULL`
and `fb->width` dereferences it. -/
def nx_drm_crtc_mode_set_base (c : nx_drm_crtc) (d : drm_device) (x y : Int)
    (be_ret : Int) : Option (Int × nx_drm_crtc × drm_device) :=
  if c.dpms_mode > DRM_MODE_DPMS_ON then some (-EPERM, c, d)
  else
    match c.primary_fb with
    | none => none
    | some fb =>
      let crtc_w := u32_sub fb.width x
      let crtc_h := u32_sub fb.height y
      some (be_ret, c,
        d.log (Call.nx_drm_dp_plane_update c.pipe fb 0 0 crtc_w crtc_h x y crtc_w crtc_h))

/-! ## Page flip -/

/-- What `nx_drm_crtc_page_flip` leaves behind: its status, the CRTC, the device and the
caller's event object. -/
structure flip_result where
  ret : Int
  crtc : nx_drm_crtc
  dev : drm_device
  event : Option drm_pending_vblank_event

/-- The DRM core's `drm_vblank_get` with status `ret`: a reference on the pipe's vblank
counter is taken exactly when the status is 0. -/
def drm_vblank_get (d : drm_device) (pipe : Int) (ret : Int) : drm_device :=
  let d1 := d.log (Call.drm_vblank_get pipe)
  if ret = 0 then
    { d1 with vblank_refcount := arr_set_int d1.vblank_refcount pipe (d1.vblank_refcount pipe + 1) }
  else d1

/-- The DRM core's `drm_vblank_put`: one reference on the pipe's vblank counter is
released. -/
def drm_vblank_put (d : drm_device) (pipe : Int) : drm_device :=
  let d1 := d.log (Call.drm_vblank_put pipe)
  { d1 with vblank_refcount := arr_set_int d1.vblank_refcount pipe (d1.vblank_refcount pipe - 1) }

/-- The C function `nx_drm_crtc_page_flip`. `fb` is the new framebuffer, `event` the
completion event (`none` is `NULL`), `vblank_ret` the status of `drm_vblank_get` and
`be_ret` the status of the back end's `nx_drm_dp_plane_update`. -/
def nx_drm_crtc_page_flip (c : nx_drm_crtc) (d : drm_device) (fb : drm_framebuffer)
    (event : Option drm_pending_vblank_event) (vblank_ret be_ret : Int) : flip_result :=
  let old_fb := c.primary_fb
  if c.dpms_mode > DRM_MODE_DPMS_ON then ⟨-EINVAL, c, d, event⟩
  else
    match event with
    | none => ⟨-EINVAL, c, d, none⟩
    | some ev =>
      let d1 := d.log Call.spin_lock_irq
      if c.event.isSome then ⟨-EBUSY, c, d1.log Call.spin_unlock_irq, some ev⟩
      else
        let d2 := drm_vblank_get d1 c.pipe vblank_ret
        if vblank_ret ≠ 0 then ⟨vblank_ret, c, d2.log Call.spin_unlock_irq, some ev⟩
        else
          let ev1 := { ev with pipe := c.pipe }
          let c1 := { c with event := some ev1 }
          let d3 := d2.log Call.spin_unlock_irq
          let c2 := { c1 with primary_fb := some fb }
          let crtc_w := u32_sub fb.width c2.x
          let crtc_h := u32_sub fb.height c2.y
          let d4 := d3.log (Call.nx_drm_dp_plane_update c2.pipe fb 0 0 crtc_w crtc_h
            c2.x c2.y crtc_w crtc_h)
          if be_ret ≠ 0 then
            let c3 := { c2 with primary_fb := old_fb }
            let d5 := d4.log Call.spin_lock_irq
            let c4 := { c3 with event := none }
            let d6 := drm_vblank_put d5 c4.pipe
            ⟨be_ret, c4, d6.log Call.spin_unlock_irq, some ev1⟩
          else ⟨0, c2, d4, some ev1⟩

/-! ## Plane topology builder -/

/-- The properties of the port node that `of_graph_get_port_by_id` finds: the optional
integers `back_color` and `color_key`, and the `plane-names` string list (`none` when
`of_property_read_string_array` cannot read it). -/
structure port_props where
  back_color : Option Nat
  color_key : Option Nat
  plane_names : Option (List String)

/-- One pass of the `for` loop of `nx_drm_crtc_parse_dt`, for slot `i` named `s`. -/
def nx_drm_crtc_parse_slot (top : dp_plane_top) (i : Nat) (s : String) : dp_plane_top :=
  if "primary" = s then
    { top with plane_type := arr_set top.plane_type i DRM_PLANE_TYPE_PRIMARY,
               plane_flag := arr_set top.plane_flag i PLANE_FLAG_RGB }
  else if "cursor" = s then
    { top with plane_type := arr_set top.plane_type i DRM_PLANE_TYPE_CURSOR,
               plane_flag := arr_set top.plane_flag i PLANE_FLAG_RGB }
  else if "rgb" = s then
    { top with plane_type := arr_set top.plane_type i DRM_PLANE_TYPE_OVERLAY,
               plane_flag := arr_set top.plane_flag i PLANE_FLAG_RGB }
  else if "video" = s then
    { top with plane_type := arr_set top.plane_type i DRM_PLANE_TYPE_OVERLAY,
               plane_flag := arr_set top.plane_flag i PLANE_FLAG_VIDEO,
               video_prior := i }
  else
    { top with plane_flag := arr_set top.plane_flag i PLANE_FLAG_UNKNOWN }

/-- The `for (i = 0; size > i; i++)` loop of `nx_drm_crtc_parse_dt` over the strings that
are left, `i` being the index of the first of them. -/
def nx_drm_crtc_parse_loop : List String → Nat → dp_plane_top → dp_plane_top
  | [], _, top => top
  | s :: rest, i, top => nx_drm_crtc_parse_loop rest (i + 1) (nx_drm_crtc_parse_slot top i s)

/-- The C function `nx_drm_crtc_parse_dt`. `port_by_id` is the device tree seen through
`of_graph_get_port_by_id`; at most 10 plane names are read, and a `plane-names` property
that cannot be read gives the negative size `-EINVAL`. -/
def nx_drm_crtc_parse_dt (port_by_id : Int → Option port_props) (c : nx_drm_crtc)
    (pipe : Int) : Int × nx_drm_crtc :=
  match port_by_id pipe with
  | none => (-EINVAL, c)
  | some child =>
    let top1 := match child.back_color with
      | some v => { c.top with back_color := v }
      | none => c.top
    let top2 := match child.color_key with
      | some v => { top1 with color_key := v }
      | none => top1
    let strings := match child.plane_names with
      | some names => names.take 10
      | none => []
    let size : Int := match child.plane_names with
      | some _ => (strings.length : Int)
      | none => -EINVAL
    let top3 := { top2 with num_planes := size }
    (0, { c with top := nx_drm_crtc_parse_loop strings 0 top3 })

/-! ## Plane factory -/

/-- The C expression `1 << pipe`, for a pipe index in `0 .. 30`. -/
def pipe_mask (pipe : Int) : Int := 2 ^ pipe.toNat

/-- The locals of `nx_drm_crtc_create_planes` while its loop runs: the CRTC (for `top`),
the device, the `planes` array (`none` is `NULL`) and the counter `num`. -/
structure planes_state where
  crtc : nx_drm_crtc
  dev : drm_device
  planes : Nat → Option Nat
  num : Int

/-- One pass of the creation loop of `nx_drm_crtc_create_planes` for slot `i`.
`plane_ret` is what `nx_drm_plane_init` returns for this slot read as an integer (an
error pointer when `IS_ERR`), `crtc_ret` the status of `drm_crtc_init_with_planes`. The
result is `Except.error` with the status when the pass leaves for `err_plane`. -/
def nx_drm_crtc_create_planes_body (pipe PLANE_VIDEO_NUM : Int) (plane_ret crtc_ret : Int)
    (s : planes_state) (i : Nat) : Except (Int × planes_state) planes_state :=
  let plane_type := s.crtc.top.plane_type i
  let video : Bool := if s.crtc.top.plane_flag i = PLANE_FLAG_VIDEO then true else false
  if PLANE_FLAG_UNKNOWN = s.crtc.top.plane_flag i then Except.ok s
  else
    let plane_num := if video then PLANE_VIDEO_NUM else s.num
    let s1 := if video then s else { s with num := s.num + 1 }
    let plane : Option Nat := if IS_ERR plane_ret then none else some i
    let call := Call.nx_drm_plane_init pipe (pipe_mask pipe) plane_type plane_num plane
    let s2 := { s1 with dev := s1.dev.log call }
    if IS_ERR plane_ret then Except.error (plane_ret, s2)
    else if DRM_PLANE_TYPE_PRIMARY = plane_type then
      let s3 := { s2 with
        crtc := { s2.crtc with top := { s2.crtc.top with primary_plane := i } },
        dev := s2.dev.log (Call.drm_crtc_init_with_planes pipe i) }
      if 0 > crtc_ret then Except.error (crtc_ret, s3)
      else Except.ok { s3 with planes := arr_set s3.planes i (some i) }
    else Except.ok { s2 with planes := arr_set s2.planes i (some i) }

/-- The creation loop of `nx_drm_crtc_create_planes` over the slot indices that are
left. -/
def nx_drm_crtc_create_planes_loop (pipe PLANE_VIDEO_NUM : Int)
    (plane_ret crtc_ret : Nat → Int) :
    List Nat → planes_state → Except (Int × planes_state) planes_state
  | [], s => Except.ok s
  | i :: rest, s =>
    match nx_drm_crtc_create_planes_body pipe PLANE_VIDEO_NUM (plane_ret i) (crtc_ret i) s i with
    | Except.error e => Except.error e
    | Except.ok s1 => nx_drm_crtc_create_planes_loop pipe PLANE_VIDEO_NUM plane_ret crtc_ret rest s1

/-- The loop after the label `err_plane`: every non-`NULL` entry of `planes` is
destroyed. -/
def nx_drm_crtc_destroy_planes (pipe : Int) (planes : Nat → Option Nat) :
    List Nat → drm_device → drm_device
  | [], d => d
  | i :: rest, d =>
    match planes i with
    | some p => nx_drm_crtc_destroy_planes pipe planes rest (d.log (Call.plane_destroy pipe p))
    | none => nx_drm_crtc_destroy_planes pipe planes rest d

/-- The C function `nx_drm_crtc_create_planes`. `plane_ret i` and `crtc_ret i` are what
`nx_drm_plane_init` and `drm_crtc_init_with_planes` return when called for slot `i`. -/
def nx_drm_crtc_create_planes (c : nx_drm_crtc) (d : drm_device) (pipe : Int)
    (PLANE_VIDEO_NUM : Int) (plane_ret crtc_ret : Nat → Int) :
    Int × nx_drm_crtc × drm_device :=
  let slots := List.range c.top.num_planes.toNat
  match nx_drm_crtc_create_planes_loop pipe PLANE_VIDEO_NUM plane_ret crtc_ret slots
      ⟨c, d, fun _ => none, 0⟩ with
  | Except.ok s => (0, s.crtc, s.dev.log (Call.drm_crtc_helper_add pipe))
  | Except.error (ret, s) => (ret, s.crtc, nx_drm_crtc_destroy_planes pipe s.planes slots s.dev)

/-! ## CRTC registry -/

/-- A child node of the device node: its name and its `reg` property as
`of_property_read_u32` reads it (`none` when the read fails). -/
structure device_node where
  name : String
  reg : Option Nat

/-- The device tree of the display device: the children of its `ports` child when there
is one, the children of the device node itself, and the port lookup
`of_graph_get_port_by_id`. -/
structure of_tree where
  ports : Option (List device_node)
  children : List device_node
  port_by_id : Int → Option port_props

/-- Modelled from the spec: `of_node_cmp` of `linux/of.h`, the comparison of node names,
0 when the names agree. -/
def of_node_cmp (a b : String) : Int := if a = b then 0 else 1

/-- The `for_each_child_of_node` loop of `__of_graph_get_port_num_index` over the
children that are left. -/
def of_graph_get_port_num_index_loop (pipe_size : Int) :
    List device_node → (Nat → Int) → Nat → (Nat → Int) × Nat
  | [], pipe, num => (pipe, num)
  | port :: rest, pipe, num =>
    if of_node_cmp port.name "port" ≠ 0 then
      of_graph_get_port_num_index_loop pipe_size rest pipe num
    else
      match port.reg with
      | none => of_graph_get_port_num_index_loop pipe_size rest pipe num
      | some port_id =>
        let pipe1 := arr_set pipe num (u32_to_int port_id)
        let num1 := num + 1
        if (num1 : Int) > pipe_size - 1 then (pipe1, num1)
        else of_graph_get_port_num_index_loop pipe_size rest pipe1 num1

/-- The C function `__of_graph_get_port_num_index`: the filled `pipe` array and the
number of ports found. -/
def __of_graph_get_port_num_index (tree : of_tree) (pipe : Nat → Int) (pipe_size : Int) :
    (Nat → Int) × Int :=
  let parent := match tree.ports with
    | some node => node
    | none => tree.children
  let r := of_graph_get_port_num_index_loop pipe_size parent pipe 0
  (r.1, (r.2 : Int))

/-- The zero-filled `struct nx_drm_crtc` that `devm_kzalloc` hands out. -/
def kzalloc_nx_drm_crtc : nx_drm_crtc :=
  { pipe := 0, pipe_irq := 0, dpms_mode := 0, event := none,
    top := { num_planes := 0, plane_type := fun _ => DRM_PLANE_TYPE_OVERLAY,
             plane_flag := fun _ => PLANE_FLAG_RGB, video_prior := 0, primary_plane := 0,
             back_color := 0, color_key := 0 },
    primary_fb := none, x := 0, y := 0, mode := ⟨0, 0, 0⟩ }

/-- Write the CRTC object `c` back to its place `h` among the allocated objects. -/
def drm_device.store (d : drm_device) (h : Nat) (c : nx_drm_crtc) : drm_device :=
  { d with crtc_objs := d.crtc_objs.set h c }

/-- The call `devm_kfree(drm->dev, nx_crtc)` for the CRTC object with handle `h`. -/
def devm_kfree_nx_crtc (d : drm_device) (h : Nat) : drm_device :=
  { d.log (Call.devm_kfree_crtc h) with freed := d.freed ++ [h] }

/-- How one pass of the loop of `nx_drm_crtc_init` ends: it falls through to the next
pass, it returns at once, or it jumps to the label `err_crtc`. -/
inductive init_exit where
  | next
  | ret (r : Int)
  | err_crtc (r : Int)
deriving DecidableEq, Repr

/-- The locals of `nx_drm_crtc_init` while its loop runs: the device and the array
`nx_crtcs` (`none` is `NULL`). -/
structure init_state where
  dev : drm_device
  nx_crtcs : Nat → Option Nat

/-- One pass of the loop of `nx_drm_crtc_init` for index `i`. `plane_ret` and `crtc_ret`
are what `nx_drm_plane_init` and `drm_crtc_init_with_planes` return for the slots of this
pipeline. -/
def nx_drm_crtc_init_body (tree : of_tree) (PLANE_VIDEO_NUM : Int)
    (plane_ret crtc_ret : Nat → Int) (pipes : Nat → Int) (s : init_state) (i : Nat) :
    init_exit × init_state :=
  let pipe := pipes i
  let h := s.dev.crtc_objs.length
  let d1 := { s.dev with crtc_objs := s.dev.crtc_objs ++ [kzalloc_nx_drm_crtc] }
  let d2 := { d1 with priv := { d1.priv with
    crtcs := arr_set_int d1.priv.crtcs (i : Int) (some h),
    num_crtcs := d1.priv.num_crtcs + 1 } }
  let nx_crtc := { kzalloc_nx_drm_crtc with
    pipe := pipe, pipe_irq := d2.priv.hw_irq_no pipe, dpms_mode := DRM_MODE_DPMS_OFF }
  let r := nx_drm_crtc_parse_dt tree.port_by_id nx_crtc pipe
  if 0 > r.1 then (init_exit.ret r.1, { s with dev := d2.store h r.2 })
  else
    let d3 := d2.log (Call.nx_drm_dp_crtc_init pipe)
    let q := nx_drm_crtc_create_planes r.2 d3 pipe PLANE_VIDEO_NUM plane_ret crtc_ret
    if 0 > q.1 then (init_exit.err_crtc q.1, { s with dev := q.2.2.store h q.2.1 })
    else (init_exit.next, { dev := q.2.2.store h q.2.1, nx_crtcs := arr_set s.nx_crtcs i (some h) })

/-- The loop of `nx_drm_crtc_init` over the indices that are left. `plane_ret i` and
`crtc_ret i` are the results of plane creation and CRTC registration for the `i`-th
discovered pipeline. -/
def nx_drm_crtc_init_loop (tree : of_tree) (PLANE_VIDEO_NUM : Int)
    (plane_ret crtc_ret : Nat → Nat → Int) (pipes : Nat → Int) :
    List Nat → init_state → init_exit × init_state
  | [], s => (init_exit.next, s)
  | i :: rest, s =>
    match nx_drm_crtc_init_body tree PLANE_VIDEO_NUM (plane_ret i) (crtc_ret i) pipes s i with
    | (init_exit.next, s1) =>
      nx_drm_crtc_init_loop tree PLANE_VIDEO_NUM plane_ret crtc_ret pipes rest s1
    | e => e

/-- The loop after the label `err_crtc`: every non-`NULL` entry of `nx_crtcs` is
freed. -/
def nx_drm_crtc_init_free (nx_crtcs : Nat → Option Nat) : List Nat → drm_device → drm_device
  | [], d => d
  | i :: rest, d =>
    match nx_crtcs i with
    | some h => nx_drm_crtc_init_free nx_crtcs rest (devm_kfree_nx_crtc d h)
    | none => nx_drm_crtc_init_free nx_crtcs rest d

/-- The C function `nx_drm_crtc_init`: its status and the device it leaves. -/
def nx_drm_crtc_init (tree : of_tree) (PLANE_VIDEO_NUM : Int)
    (plane_ret crtc_ret : Nat → Nat → Int) (d : drm_device) : Int × drm_device :=
  let found := __of_graph_get_port_num_index tree (fun _ => 0) 10
  let pipes := found.1
  let num_crtcs := found.2
  let idx := List.range num_crtcs.toNat
  match nx_drm_crtc_init_loop tree PLANE_VIDEO_NUM plane_ret crtc_ret pipes idx
      ⟨d, fun _ => none⟩ with
  | (init_exit.next, s) => (0, s.dev)
  | (init_exit.ret r, s) => (r, s.dev)
  | (init_exit.err_crtc r, s) => (r, nx_drm_crtc_init_free s.nx_crtcs idx s.dev)

/-- The C function `nx_drm_crtc_destroy` for the CRTC object with handle `h`; `none` when
`h` names no allocated object. -/
def nx_drm_crtc_destroy (d : drm_device) (h : Nat) : Option drm_device :=
  match d.crtc_objs.get? h with
  | none => none
  | some nx_crtc =>
    let pipe := nx_crtc.pipe
    let d1 := { d with priv := { d.priv with crtcs := arr_set_int d.priv.crtcs pipe none } }
    let d2 := d1.log (Call.drm_crtc_cleanup pipe)
    some (devm_kfree_nx_crtc d2 h)

/-- A device before `nx_drm_crtc_init`: empty registry, nothing allocated, no call
issued; `irq` is the interrupt table `hw_irq_no`. -/
def drm_device.fresh (irq : Int → Int) : drm_device :=
  { trace := [], vblank_refcount := fun _ => 0,
    priv := { crtcs := fun _ => none, num_crtcs := 0, hw_irq_no := irq },
    crtc_objs := [], freed := [] }

/-! ## Disable -/

/-- A `struct drm_plane` of the device's global plane list: an identity, the CRTC that
owns it (`plane->crtc`, a CRTC handle, `none` for `NULL`) and its type. -/
structure drm_plane where
  id : Nat
  crtc : Option Nat
  type : drm_plane_type
deriving DecidableEq, Repr

/-- The loop of `nx_drm_crtc_disable` over the planes that are left. `visits` tells which
planes of the list the iterator `drm_for_each_legacy_plane` hands to the loop body,
`self` is the handle of the CRTC being disabled and `disable_ret plane` the status of
`disable_plane` on `plane`. -/
def nx_drm_crtc_disable_planes (visits : drm_plane → Bool) (self : Nat)
    (disable_ret : drm_plane → Int) : List drm_plane → drm_device → drm_device
  | [], d => d
  | plane :: rest, d =>
    if visits plane = false then
      nx_drm_crtc_disable_planes visits self disable_ret rest d
    else if plane.crtc ≠ some self then
      nx_drm_crtc_disable_planes visits self disable_ret rest d
    else
      let d1 := d.log (Call.disable_plane plane.id)
      let ret := disable_ret plane
      let d2 := if ret ≠ 0 then d1.log (Call.DRM_ERROR_disable_plane ret) else d1
      nx_drm_crtc_disable_planes visits self disable_ret rest d2

/-- The C function `nx_drm_crtc_disable` on the CRTC `c` with handle `self`; `plane_list`
is `crtc->dev->mode_config.plane_list`. -/
def nx_drm_crtc_disable (c : nx_drm_crtc) (d : drm_device) (self : Nat)
    (visits : drm_plane → Bool) (plane_list : List drm_plane)
    (disable_ret : drm_plane → Int) : nx_drm_crtc × drm_device :=
  let r := nx_drm_crtc_dpms c d DRM_MODE_DPMS_OFF
  (r.1, nx_drm_crtc_disable_planes visits self disable_ret plane_list r.2)

/-- The planes that the DRM core's iterator `drm_for_each_legacy_plane` hands to the loop
body: the legacy planes, which are the planes of type `DRM_PLANE_TYPE_OVERLAY`; primary
and cursor planes are skipped. -/
def legacy_overlay_only (p : drm_plane) : Bool :=
  decide (p.type = DRM_PLANE_TYPE_OVERLAY)

/-- The plane a `disable_plane` call is made on, `none` for any other call. -/
def Call.disabled_plane : Call → Option Nat
  | Call.disable_plane p => some p
  | _ => none

/-! ## Reading the trace -/

/-- Calls into the display back end (`nx_drm_dp_*`). -/
def Call.is_backend : Call → Bool
  | Call.nx_drm_dp_crtc_dpms _ _ => true
  | Call.nx_drm_dp_crtc_commit _ => true
  | Call.nx_drm_dp_crtc_mode_set _ _ _ _ _ _ _ _ _ _ => true
  | Call.nx_drm_dp_plane_update _ _ _ _ _ _ _ _ _ _ => true
  | Call.nx_drm_dp_crtc_init _ => true
  | _ => false

/-- Modelled from the spec: the conversion of an `unsigned int` argument to a width or
height parameter of the back end's `nx_drm_dp_crtc_mode_set` and
`nx_drm_dp_plane_update`. Their prototypes are in `soc/s5pxx18_drm_dp.h`, which is not
among the sources; the specification has the Backend receive a negative width for
`800 - 900`, so these parameters are `int`, and the argument is converted to `int` (two's
complement, 32 bits). -/
def backend_int_param (arg : Int) : Int := u32_to_int arg.toNat

/-- The width and height the back end receives with a mode-set or plane-update call:
the fifth and sixth arguments of the call, converted to the parameter type. -/
def Call.received_size : Call → Option (Int × Int)
  | Call.nx_drm_dp_crtc_mode_set _ _ _ _ w h _ _ _ _ =>
    some (backend_int_param w, backend_int_param h)
  | Call.nx_drm_dp_plane_update _ _ _ _ w h _ _ _ _ =>
    some (backend_int_param w, backend_int_param h)
  | _ => none

/-- Plane requests (`nx_drm_plane_init`). -/
def Call.is_plane_request : Call → Bool
  | Call.nx_drm_plane_init _ _ _ _ _ => true
  | _ => false

/-! ## Plane numbering as the specification words it -/

/-- A slot that is neither a video slot nor UNKNOWN: the slots that consume a plane
number. -/
def numbered_slot (top : dp_plane_top) (j : Nat) : Bool :=
  decide (top.plane_flag j ≠ PLANE_FLAG_VIDEO ∧ top.plane_flag j ≠ PLANE_FLAG_UNKNOWN)

/-- The plane number the specification gives slot `i`: the reserved video number for a
video slot, and for the `k`-th (0-based) non-video non-UNKNOWN slot the number `k`, that
is the number of such slots before `i`. -/
def spec_plane_num (top : dp_plane_top) (PLANE_VIDEO_NUM : Int) (i : Nat) : Int :=
  if top.plane_flag i = PLANE_FLAG_VIDEO then PLANE_VIDEO_NUM
  else (((List.range i).filter (numbered_slot top)).length : Int)

/-- The plane request the specification describes for slot `i`. -/
def spec_plane_request (top : dp_plane_top) (pipe PLANE_VIDEO_NUM : Int) (i : Nat) : Call :=
  Call.nx_drm_plane_init pipe (pipe_mask pipe) (top.plane_type i)
    (spec_plane_num top PLANE_VIDEO_NUM i) (some i)

/-- The plane requests the specification describes for a topology: one per non-UNKNOWN
slot, in declaration order. -/
def spec_plane_requests (top : dp_plane_top) (pipe PLANE_VIDEO_NUM : Int) : List Call :=
  ((List.range top.num_planes.toNat).filter
    (fun i => decide (top.plane_flag i ≠ PLANE_FLAG_UNKNOWN))).map
    (spec_plane_request top pipe PLANE_VIDEO_NUM)

/-! ## Port discovery as the specification words it -/

/-- The list of children that `__of_graph_get_port_num_index` walks: those of the `ports`
child when there is one, those of the device node otherwise. -/
def of_tree.scanned (tree : of_tree) : List device_node :=
  match tree.ports with
  | some node => node
  | none => tree.children

/-- The `reg` values of the children named "port" that have a readable `reg`, in
declaration order. -/
def port_regs (children : List device_node) : List Nat :=
  children.filterMap (fun n => if of_node_cmp n.name "port" = 0 then n.reg else none)

/-- The state in which the creation loop of `nx_drm_crtc_create_planes` is left, whether
it ran to its end or jumped to `err_plane`. -/
def planes_exit_state : Except (Int × planes_state) planes_state → planes_state
  | Except.ok s => s
  | Except.error e => e.2

/-- The four DPMS modes of the DRM mode header. -/
def dpms_mode_recognized (m : Int) : Prop :=
  m = DRM_MODE_DPMS_ON ∨ m = DRM_MODE_DPMS_STANDBY ∨ m = DRM_MODE_DPMS_SUSPEND ∨
    m = DRM_MODE_DPMS_OFF

/-! ## Reachable CRTC states -/

/-- The CRTC states reachable from `c0` by the CRTC operations, each issued on any device
and with any arguments and any results of the calls it makes. Between two operations the
DRM core and the vblank path may change every field of the CRTC but `dpms_mode` (step
`other`). -/
inductive crtc_reachable (c0 : nx_drm_crtc) : nx_drm_crtc → Prop where
  | start : crtc_reachable c0 c0
  | dpms (c : nx_drm_crtc) (d : drm_device) (mode : Int) :
      crtc_reachable c0 c → crtc_reachable c0 (nx_drm_crtc_dpms c d mode).1
  | commit (c : nx_drm_crtc) (d : drm_device) :
      crtc_reachable c0 c → crtc_reachable c0 (nx_drm_crtc_commit c d).1
  | mode_set (c : nx_drm_crtc) (d : drm_device) (adjusted_mode : drm_display_mode)
      (x y be_ret : Int) (r : Int × nx_drm_crtc × drm_device) :
      crtc_reachable c0 c → nx_drm_crtc_mode_set c d adjusted_mode x y be_ret = some r →
      crtc_reachable c0 r.2.1
  | mode_set_base (c : nx_drm_crtc) (d : drm_device) (x y be_ret : Int)
      (r : Int × nx_drm_crtc × drm_device) :
      crtc_reachable c0 c → nx_drm_crtc_mode_set_base c d x y be_ret = some r →
      crtc_reachable c0 r.2.1
  | page_flip (c : nx_drm_crtc) (d : drm_device) (fb : drm_framebuffer)
      (event : Option drm_pending_vblank_event) (vblank_ret be_ret : Int) :
      crtc_reachable c0 c →
      crtc_reachable c0 (nx_drm_crtc_page_flip c d fb event vblank_ret be_ret).crtc
  | disable (c : nx_drm_crtc) (d : drm_device) (self : Nat) (visits : drm_plane → Bool)
      (plane_list : List drm_plane) (disable_ret : drm_plane → Int) :
      crtc_reachable c0 c →
      crtc_reachable c0 (nx_drm_crtc_disable c d self visits plane_list disable_ret).1
  | other (c c1 : nx_drm_crtc) :
      crtc_reachable c0 c → c1.dpms_mode = c.dpms_mode → crtc_reachable c0 c1

/-! ## Sample data -/

/-- A device on which nothing has happened yet. -/
def dev0 : drm_device := drm_device.fresh (fun p => 32 + p)

/-- An 800 x 600 framebuffer. -/
def fb800 : drm_framebuffer := ⟨1, 800, 600⟩

/-- A 1024 x 768 framebuffer. -/
def fb1024 : drm_framebuffer := ⟨2, 1024, 768⟩

/-- A CRTC on pipe 0 in DPMS mode `m`, scanning out `fb800`, no flip pending. -/
def crtc_in (m : Int) : nx_drm_crtc :=
  { kzalloc_nx_drm_crtc with dpms_mode := m, primary_fb := some fb800 }

/-- A display mode. -/
def mode0 : drm_display_mode := ⟨40000, 800, 600⟩

/-- A port description with the given plane names and no colour properties. -/
def port_with (names : List String) : port_props := ⟨none, none, some names⟩

/-- A freshly allocated CRTC on pipe 0 whose topology was parsed from the given plane
names. -/
def crtc_with (names : List String) : nx_drm_crtc :=
  (nx_drm_crtc_parse_dt (fun _ => some (port_with names)) kzalloc_nx_drm_crtc 0).2

/-- A device tree without a `ports` node whose `port` children carry the given `reg`
values and all have the given plane names. -/
def tree_with (regs : List Nat) (names : List String) : of_tree :=
  { ports := none
    children := regs.map (fun r => ⟨"port", some r⟩)
    port_by_id := fun _ => some (port_with names) }

/-- The plane-creation results of an initialization in which every plane of pipeline 0 is
created and the first plane of pipeline 1 fails with the error pointer -12. -/
def plane_ret_fail_second : Nat → Nat → Int :=
  fun i _ => if i = 1 then -12 else 0

/-- A device tree with `port` children 0 and 1 in which the lookup of port 1 finds
nothing. -/
def tree_without_port1 : of_tree :=
  { ports := none
    children := [⟨"port", some 0⟩, ⟨"port", some 1⟩]
    port_by_id := fun p => if p = 0 then some (port_with ["primary"]) else none }

/-- A CRTC on pipe 0 that is ON, scans out `fb800` from position (`x`, `y`) and has no
flip pending. -/
def crtc_at (x y : Int) : nx_drm_crtc :=
  { crtc_in DRM_MODE_DPMS_ON with x := x, y := y }

/-- A CRTC like `crtc_in m` on which the flip with event 9 is pending. -/
def crtc_flipping (m : Int) : nx_drm_crtc :=
  { crtc_in m with event := some ⟨9, 0⟩ }

/-- A global plane list: the primary, an overlay and the cursor plane of CRTC 0, and an
overlay plane of CRTC 1 in between. -/
def planes_of_two_crtcs : List drm_plane :=
  [⟨10, some 0, DRM_PLANE_TYPE_PRIMARY⟩, ⟨11, some 0, DRM_PLANE_TYPE_OVERLAY⟩,
   ⟨12, some 1, DRM_PLANE_TYPE_OVERLAY⟩, ⟨13, some 0, DRM_PLANE_TYPE_CURSOR⟩]

end NxDrm

/-! ## Theorems -/

namespace NxDrm
open drm_plane_type plane_flag

/-! ### Page flip -/

theorem vblank_get_put_refcount (f : Int → Int) (p : Int) :
    arr_set_int (arr_set_int f p (f p + 1)) p (arr_set_int f p (f p + 1) p - 1) = f := by
  funext j
  by_cases hj : j = p
  · subst hj; simp [arr_set_int]
  · simp [arr_set_int, hj]

/-- C2 (mutual exclusion of flips): on a CRTC that is ON with no flip pending, a first
page flip whose vblank acquisition and back-end update succeed returns 0; a second page
flip issued before any completion returns `-EBUSY`, leaves the CRTC (hence `dpms_mode`,
the primary framebuffer and the pending event) as the first call left it, adds only the
event-lock pair to the trace (no back-end call) and takes no vblank reference. -/
theorem page_flip_second_is_busy (c : nx_drm_crtc) (d : drm_device)
    (fb1 fb2 : drm_framebuffer) (ev1 ev2 : drm_pending_vblank_event) (vblank_ret2 be_ret2 : Int)
    (hon : c.dpms_mode = DRM_MODE_DPMS_ON) (hev : c.event = none) :
    (nx_drm_crtc_page_flip c d fb1 (some ev1) 0 0).ret = 0 ∧
    (nx_drm_crtc_page_flip (nx_drm_crtc_page_flip c d fb1 (some ev1) 0 0).crtc
        (nx_drm_crtc_page_flip c d fb1 (some ev1) 0 0).dev fb2 (some ev2)
        vblank_ret2 be_ret2).ret = -EBUSY ∧
    (nx_drm_crtc_page_flip (nx_drm_crtc_page_flip c d fb1 (some ev1) 0 0).crtc
        (nx_drm_crtc_page_flip c d fb1 (some ev1) 0 0).dev fb2 (some ev2)
        vblank_ret2 be_ret2).crtc = (nx_drm_crtc_page_flip c d fb1 (some ev1) 0 0).crtc ∧
    (nx_drm_crtc_page_flip c d fb1 (some ev1) 0 0).crtc.dpms_mode = DRM_MODE_DPMS_ON ∧
    (nx_drm_crtc_page_flip c d fb1 (some ev1) 0 0).crtc.primary_fb = some fb1 ∧
    (nx_drm_crtc_page_flip c d fb1 (some ev1) 0 0).crtc.event = some ⟨ev1.id, c.pipe⟩ ∧
    (nx_drm_crtc_page_flip (nx_drm_crtc_page_flip c d fb1 (some ev1) 0 0).crtc
        (nx_drm_crtc_page_flip c d fb1 (some ev1) 0 0).dev fb2 (some ev2)
        vblank_ret2 be_ret2).dev.trace =
      (nx_drm_crtc_page_flip c d fb1 (some ev1) 0 0).dev.trace ++
        [Call.spin_lock_irq, Call.spin_unlock_irq] ∧
    (nx_drm_crtc_page_flip (nx_drm_crtc_page_flip c d fb1 (some ev1) 0 0).crtc
        (nx_drm_crtc_page_flip c d fb1 (some ev1) 0 0).dev fb2 (some ev2)
        vblank_ret2 be_ret2).dev.vblank_refcount =
      (nx_drm_crtc_page_flip c d fb1 (some ev1) 0 0).dev.vblank_refcount := by
  have h1 : nx_drm_crtc_page_flip c d fb1 (some ev1) 0 0 =
      ⟨0, { c with event := some ⟨ev1.id, c.pipe⟩, primary_fb := some fb1 },
        (((drm_vblank_get (d.log Call.spin_lock_irq) c.pipe 0).log Call.spin_unlock_irq).log
          (Call.nx_drm_dp_plane_update c.pipe fb1 0 0 (u32_sub fb1.width c.x)
            (u32_sub fb1.height c.y) c.x c.y (u32_sub fb1.width c.x) (u32_sub fb1.height c.y))),
        some ⟨ev1.id, c.pipe⟩⟩ := by
    simp [nx_drm_crtc_page_flip, hon, hev]
  rw [h1]
  simp [nx_drm_crtc_page_flip, hon, drm_device.log]

/-- Witness of C2 on a CRTC that is ON and scans out `fb800`. -/
theorem page_flip_second_is_busy_witness :
    (nx_drm_crtc_page_flip (crtc_in DRM_MODE_DPMS_ON) dev0 fb1024 (some ⟨7, 0⟩) 0 0).ret = 0 ∧
    (nx_drm_crtc_page_flip
        (nx_drm_crtc_page_flip (crtc_in DRM_MODE_DPMS_ON) dev0 fb1024 (some ⟨7, 0⟩) 0 0).crtc
        (nx_drm_crtc_page_flip (crtc_in DRM_MODE_DPMS_ON) dev0 fb1024 (some ⟨7, 0⟩) 0 0).dev
        fb800 (some ⟨8, 0⟩) 0 0).ret = -EBUSY :=
  have h := page_flip_second_is_busy (crtc_in DRM_MODE_DPMS_ON) dev0 fb1024 fb800 ⟨7, 0⟩ ⟨8, 0⟩
    0 0 rfl rfl
  ⟨h.1, h.2.1⟩

/-- C3 (rollback on flip failure): an admitted page flip (CRTC ON, event present, none
pending, vblank acquired) whose back-end update returns the non-zero status `e` returns
`e` and leaves the CRTC equal to the pre-call CRTC: same primary framebuffer, no pending
event; and the vblank reference counts equal their pre-call values. -/
theorem page_flip_rollback (c : nx_drm_crtc) (d : drm_device) (fb : drm_framebuffer)
    (ev : drm_pending_vblank_event) (e : Int)
    (hon : c.dpms_mode = DRM_MODE_DPMS_ON) (hev : c.event = none) (he : e ≠ 0) :
    (nx_drm_crtc_page_flip c d fb (some ev) 0 e).ret = e ∧
    (nx_drm_crtc_page_flip c d fb (some ev) 0 e).crtc = c ∧
    (nx_drm_crtc_page_flip c d fb (some ev) 0 e).crtc.primary_fb = c.primary_fb ∧
    (nx_drm_crtc_page_flip c d fb (some ev) 0 e).crtc.event = none ∧
    (nx_drm_crtc_page_flip c d fb (some ev) 0 e).dev.vblank_refcount = d.vblank_refcount ∧
    (nx_drm_crtc_page_flip c d fb (some ev) 0 e).dev.trace = d.trace ++
      [Call.spin_lock_irq, Call.drm_vblank_get c.pipe, Call.spin_unlock_irq,
       Call.nx_drm_dp_plane_update c.pipe fb 0 0 (u32_sub fb.width c.x) (u32_sub fb.height c.y)
         c.x c.y (u32_sub fb.width c.x) (u32_sub fb.height c.y),
       Call.spin_lock_irq, Call.drm_vblank_put c.pipe, Call.spin_unlock_irq] := by
  cases c with
  | mk pipe pipe_irq dpms_mode event top primary_fb x y mode =>
    simp only at hon hev
    subst hon hev
    refine ⟨?_, ?_, ?_, ?_, ?_, ?_⟩
    · simp [nx_drm_crtc_page_flip, he, DRM_MODE_DPMS_ON]
    · simp [nx_drm_crtc_page_flip, he, DRM_MODE_DPMS_ON]
    · simp [nx_drm_crtc_page_flip, he, DRM_MODE_DPMS_ON]
    · simp [nx_drm_crtc_page_flip, he, DRM_MODE_DPMS_ON]
    · simp only [nx_drm_crtc_page_flip, he, DRM_MODE_DPMS_ON, drm_vblank_put, drm_vblank_get,
        drm_device.log, gt_iff_lt, lt_self_iff_false, if_false, if_true, Option.isSome_none,
        Bool.false_eq_true, ne_eq, not_true_eq_false, not_false_eq_true]
      exact vblank_get_put_refcount d.vblank_refcount pipe
    · simp [nx_drm_crtc_page_flip, he, DRM_MODE_DPMS_ON, drm_vblank_put, drm_vblank_get,
        drm_device.log]

/-- Witness of C3: the back end fails with -5 on a CRTC that is ON and scans out
`fb800`. -/
theorem page_flip_rollback_witness :
    (nx_drm_crtc_page_flip (crtc_in DRM_MODE_DPMS_ON) dev0 fb1024 (some ⟨7, 0⟩) 0 (-5)).ret = -5 ∧
    (nx_drm_crtc_page_flip (crtc_in DRM_MODE_DPMS_ON) dev0 fb1024 (some ⟨7, 0⟩) 0 (-5)).crtc
      = crtc_in DRM_MODE_DPMS_ON :=
  have h := page_flip_rollback (crtc_in DRM_MODE_DPMS_ON) dev0 fb1024 ⟨7, 0⟩ (-5) rfl rfl
    (by decide)
  ⟨h.1, h.2.1⟩

/-! ### DPMS and mode setting -/

/-- C4 (idempotent DPMS): a DPMS request for the mode `m` the CRTC is already in returns
the CRTC and the device unchanged: `dpms_mode` and the rest of the CRTC state are the
same and nothing is added to the trace, so no back-end dpms call is issued and the
mode-change lock is not taken. -/
theorem dpms_same_mode_is_noop (c : nx_drm_crtc) (d : drm_device) (m : Int)
    (hm : m = c.dpms_mode) :
    nx_drm_crtc_dpms c d m = (c, d) ∧
    (nx_drm_crtc_dpms c d m).1.dpms_mode = c.dpms_mode ∧
    (nx_drm_crtc_dpms c d m).2.trace = d.trace := by
  have h : nx_drm_crtc_dpms c d m = (c, d) := by
    simp [nx_drm_crtc_dpms, hm]
  rw [h]
  exact ⟨rfl, rfl, rfl⟩

/-- Witness of C4: DPMS(SUSPEND) on a CRTC that is in SUSPEND. -/
theorem dpms_same_mode_is_noop_witness :
    nx_drm_crtc_dpms (crtc_in DRM_MODE_DPMS_SUSPEND) dev0 2
      = (crtc_in DRM_MODE_DPMS_SUSPEND, dev0) :=
  (dpms_same_mode_is_noop (crtc_in DRM_MODE_DPMS_SUSPEND) dev0 2 rfl).1

/-- C5 (ModeSetBase permission gate): while `dpms_mode` is OFF, STANDBY or SUSPEND,
`nx_drm_crtc_mode_set_base` returns `-EPERM` and leaves CRTC and device (hence the trace)
unchanged, whatever the framebuffer, `x` and `y`; while it is ON, with framebuffer `fb`
on the primary plane, it appends exactly one back-end plane-update call to the trace and
returns the status of that call. -/
theorem mode_set_base_permission_gate (c : nx_drm_crtc) (d : drm_device) (x y be_ret : Int) :
    (c.dpms_mode = DRM_MODE_DPMS_OFF ∨ c.dpms_mode = DRM_MODE_DPMS_STANDBY ∨
        c.dpms_mode = DRM_MODE_DPMS_SUSPEND →
      nx_drm_crtc_mode_set_base c d x y be_ret = some (-EPERM, c, d)) ∧
    (∀ fb : drm_framebuffer, c.dpms_mode = DRM_MODE_DPMS_ON → c.primary_fb = some fb →
      nx_drm_crtc_mode_set_base c d x y be_ret =
        some (be_ret, c, { d with trace := d.trace ++
          [Call.nx_drm_dp_plane_update c.pipe fb 0 0 (u32_sub fb.width x) (u32_sub fb.height y)
            x y (u32_sub fb.width x) (u32_sub fb.height y)] })) := by
  constructor
  · intro h
    have hgt : c.dpms_mode > DRM_MODE_DPMS_ON := by
      rcases h with h | h | h <;> rw [h] <;> decide
    simp [nx_drm_crtc_mode_set_base, hgt]
  · intro fb hon hfb
    simp [nx_drm_crtc_mode_set_base, hon, hfb, drm_device.log]

/-- Witness of C5: the three rejected modes and the admitted one on a CRTC scanning out
`fb800`. -/
theorem mode_set_base_permission_gate_witness :
    nx_drm_crtc_mode_set_base (crtc_in DRM_MODE_DPMS_OFF) dev0 50 100 0
      = some (-EPERM, crtc_in DRM_MODE_DPMS_OFF, dev0) ∧
    nx_drm_crtc_mode_set_base (crtc_in DRM_MODE_DPMS_STANDBY) dev0 50 100 0
      = some (-EPERM, crtc_in DRM_MODE_DPMS_STANDBY, dev0) ∧
    nx_drm_crtc_mode_set_base (crtc_in DRM_MODE_DPMS_SUSPEND) dev0 50 100 0
      = some (-EPERM, crtc_in DRM_MODE_DPMS_SUSPEND, dev0) ∧
    nx_drm_crtc_mode_set_base (crtc_in DRM_MODE_DPMS_ON) dev0 50 100 (-5)
      = some (-5, crtc_in DRM_MODE_DPMS_ON, { dev0 with trace := dev0.trace ++
          [Call.nx_drm_dp_plane_update (crtc_in DRM_MODE_DPMS_ON).pipe fb800 0 0
            (u32_sub fb800.width 50) (u32_sub fb800.height 100) 50 100
            (u32_sub fb800.width 50) (u32_sub fb800.height 100)] }) :=
  ⟨(mode_set_base_permission_gate (crtc_in DRM_MODE_DPMS_OFF) dev0 50 100 0).1 (Or.inl rfl),
   (mode_set_base_permission_gate (crtc_in DRM_MODE_DPMS_STANDBY) dev0 50 100 0).1
     (Or.inr (Or.inl rfl)),
   (mode_set_base_permission_gate (crtc_in DRM_MODE_DPMS_SUSPEND) dev0 50 100 0).1
     (Or.inr (Or.inr rfl)),
   (mode_set_base_permission_gate (crtc_in DRM_MODE_DPMS_ON) dev0 50 100 (-5)).2 fb800 rfl rfl⟩

theorem backend_int_param_u32_sub (a : Nat) (b : Int)
    (h0 : -2147483648 ≤ (a : Int) - b) (h1 : (a : Int) - b < 2147483648) :
    backend_int_param (u32_sub a b) = (a : Int) - b := by
  unfold backend_int_param u32_to_int u32_sub
  split_ifs with h <;> omega

/-- C6 (width/height pass-through): with framebuffer `fb` on the primary plane,
`nx_drm_crtc_mode_set` copies the adjusted mode, returns the back end's status and
issues exactly one back-end mode-set call whose width and height arguments are the C
expressions `fb->width - x` and `fb->height - y`; the width and height the back end
receives are the raw differences `fb.width - x` and `fb.height - y`, unclamped, whenever
these fit an `int`, negative ones included: 750 and 500 for 800 x 600 with `x = 50`,
`y = 100`, and the negative width `800 - 900 = -100` for `x = 900`. -/
theorem mode_set_width_height_pass_through (c : nx_drm_crtc) (d : drm_device)
    (adjusted_mode : drm_display_mode) (x y be_ret : Int) (fb : drm_framebuffer)
    (hfb : c.primary_fb = some fb) :
    nx_drm_crtc_mode_set c d adjusted_mode x y be_ret =
      some (be_ret, { c with mode := adjusted_mode }, { d with trace := d.trace ++
        [Call.nx_drm_dp_crtc_mode_set c.pipe fb 0 0 (u32_sub fb.width x) (u32_sub fb.height y)
          x y (u32_sub fb.width x) (u32_sub fb.height y)] }) ∧
    Call.received_size (Call.nx_drm_dp_crtc_mode_set c.pipe fb 0 0 (u32_sub fb.width x)
        (u32_sub fb.height y) x y (u32_sub fb.width x) (u32_sub fb.height y))
      = some (backend_int_param (u32_sub fb.width x), backend_int_param (u32_sub fb.height y)) ∧
    (-2147483648 ≤ (fb.width : Int) - x → (fb.width : Int) - x < 2147483648 →
      backend_int_param (u32_sub fb.width x) = (fb.width : Int) - x) ∧
    (-2147483648 ≤ (fb.height : Int) - y → (fb.height : Int) - y < 2147483648 →
      backend_int_param (u32_sub fb.height y) = (fb.height : Int) - y) ∧
    backend_int_param (u32_sub 800 50) = 750 ∧
    backend_int_param (u32_sub 600 100) = 500 ∧
    backend_int_param (u32_sub 800 900) = 800 - 900 ∧
    backend_int_param (u32_sub 800 900) = -100 := by
  refine ⟨?_, rfl, ?_, ?_, ?_, ?_, ?_, ?_⟩
  · simp [nx_drm_crtc_mode_set, hfb, drm_device.log]
  · exact backend_int_param_u32_sub fb.width x
  · exact backend_int_param_u32_sub fb.height y
  · decide
  · decide
  · decide
  · decide

/-- Witness of C6: the 800 x 600 framebuffer with `x = 900`, `y = 100`; the back end
receives the width -100 and the height 500. -/
theorem mode_set_width_height_pass_through_witness :
    nx_drm_crtc_mode_set (crtc_in DRM_MODE_DPMS_ON) dev0 mode0 900 100 0 =
      some (0, { crtc_in DRM_MODE_DPMS_ON with mode := mode0 }, { dev0 with trace := dev0.trace ++
        [Call.nx_drm_dp_crtc_mode_set (crtc_in DRM_MODE_DPMS_ON).pipe fb800 0 0
          (u32_sub fb800.width 900) (u32_sub fb800.height 100)
          900 100 (u32_sub fb800.width 900) (u32_sub fb800.height 100)] }) ∧
    backend_int_param (u32_sub fb800.width 900) = (fb800.width : Int) - 900 ∧
    backend_int_param (u32_sub fb800.height 100) = (fb800.height : Int) - 100 :=
  have h := mode_set_width_height_pass_through (crtc_in DRM_MODE_DPMS_ON) dev0 mode0 900 100 0
    fb800 rfl
  ⟨h.1, h.2.2.1 (by decide) (by decide), h.2.2.2.1 (by decide) (by decide)⟩

/-! ### Plane topology builder -/

theorem parse_slot_video_prior_of_ne (top : dp_plane_top) (i : Nat) (s : String)
    (hs : s ≠ "video") : (nx_drm_crtc_parse_slot top i s).video_prior = top.video_prior := by
  unfold nx_drm_crtc_parse_slot
  split_ifs with h1 h2 h3 h4
  · rfl
  · rfl
  · rfl
  · exact absurd h4.symm hs
  · rfl

theorem parse_slot_video_prior_video (top : dp_plane_top) (i : Nat) :
    (nx_drm_crtc_parse_slot top i "video").video_prior = (i : Int) := by
  simp [nx_drm_crtc_parse_slot]

theorem parse_loop_video_prior_of_not_mem (strings : List String) :
    ∀ (i : Nat) (top : dp_plane_top), "video" ∉ strings →
      (nx_drm_crtc_parse_loop strings i top).video_prior = top.video_prior := by
  induction strings with
  | nil => intro i top _; rfl
  | cons s rest ih =>
    intro i top h
    have hs : s ≠ "video" := fun e => h (by simp [e])
    have hrest : "video" ∉ rest := fun e => h (List.mem_cons_of_mem _ e)
    simp only [nx_drm_crtc_parse_loop]
    rw [ih (i + 1) _ hrest]
    exact parse_slot_video_prior_of_ne top i s hs

theorem parse_loop_video_prior_last (strings : List String) :
    ∀ (i : Nat) (top : dp_plane_top) (j : Nat), strings[j]? = some "video" →
      "video" ∉ strings.drop (j + 1) →
      (nx_drm_crtc_parse_loop strings i top).video_prior = ((i + j : Nat) : Int) := by
  induction strings with
  | nil => intro i top j hj; simp at hj
  | cons s rest ih =>
    intro i top j hj hlast
    cases j with
    | zero =>
      simp only [List.getElem?_cons_zero, Option.some.injEq] at hj
      subst hj
      simp only [zero_add, List.drop_succ_cons, List.drop_zero] at hlast
      simp only [nx_drm_crtc_parse_loop]
      rw [parse_loop_video_prior_of_not_mem rest (i + 1) _ hlast]
      simpa using parse_slot_video_prior_video top i
    | succ j =>
      simp only [List.getElem?_cons_succ] at hj
      simp only [List.drop_succ_cons] at hlast
      simp only [nx_drm_crtc_parse_loop]
      rw [ih (i + 1) _ j hj hlast]
      congr 1
      omega

/-- C7 (video-slot priority, last wins): when the port of the pipeline carries a
plane-name list of at most 10 names in which position `j` holds "video" and no later
position does, the topology built by `nx_drm_crtc_parse_dt` has `video_prior = j`; with
two "video" slots at positions `i < j` this is the later position `j`. -/
theorem parse_dt_video_prior_is_last_video (port_by_id : Int → Option port_props)
    (c : nx_drm_crtc) (pipe : Int) (child : port_props) (names : List String) (j : Nat)
    (hport : port_by_id pipe = some child) (hnames : child.plane_names = some names)
    (hlen : names.length ≤ 10) (hj : names[j]? = some "video")
    (hlast : "video" ∉ names.drop (j + 1)) :
    (nx_drm_crtc_parse_dt port_by_id c pipe).1 = 0 ∧
    (nx_drm_crtc_parse_dt port_by_id c pipe).2.top.video_prior = (j : Int) := by
  have htake : names.take 10 = names := List.take_of_length_le hlen
  simp only [nx_drm_crtc_parse_dt, hport, hnames, htake, true_and]
  rw [parse_loop_video_prior_last names 0 _ j hj hlast]
  simp

/-- Witness of C7: "video" at positions 1 and 3 of a four-name list gives priority 3. -/
theorem parse_dt_video_prior_is_last_video_witness :
    (nx_drm_crtc_parse_dt (fun _ => some (port_with ["primary", "video", "rgb", "video"]))
      kzalloc_nx_drm_crtc 0).1 = 0 ∧
    (nx_drm_crtc_parse_dt (fun _ => some (port_with ["primary", "video", "rgb", "video"]))
      kzalloc_nx_drm_crtc 0).2.top.video_prior = ((3 : Nat) : Int) :=
  parse_dt_video_prior_is_last_video (fun _ => some (port_with ["primary", "video", "rgb", "video"]))
    kzalloc_nx_drm_crtc 0 (port_with ["primary", "video", "rgb", "video"])
    ["primary", "video", "rgb", "video"] 3 rfl rfl (by decide) (by decide) (by decide)

/-! ### Plane factory -/

theorem create_planes_body_no_primary (pipe PLANE_VIDEO_NUM plane_ret crtc_ret : Int)
    (s : planes_state) (i : Nat)
    (h : s.crtc.top.plane_flag i ≠ PLANE_FLAG_UNKNOWN →
      s.crtc.top.plane_type i ≠ DRM_PLANE_TYPE_PRIMARY ∧ IS_ERR plane_ret = false) :
    ∃ s1, nx_drm_crtc_create_planes_body pipe PLANE_VIDEO_NUM plane_ret crtc_ret s i
        = Except.ok s1 ∧ s1.crtc = s.crtc ∧
      ∃ added, s1.dev.trace = s.dev.trace ++ added ∧
        ∀ p k, Call.drm_crtc_init_with_planes p k ∉ added := by
  by_cases hu : s.crtc.top.plane_flag i = PLANE_FLAG_UNKNOWN
  · refine ⟨s, ?_, rfl, [], by simp, by simp⟩
    simp [nx_drm_crtc_create_planes_body, hu]
  · obtain ⟨hp, hok⟩ := h hu
    have hu2 : ¬ PLANE_FLAG_UNKNOWN = s.crtc.top.plane_flag i := fun e => hu e.symm
    have hp2 : ¬ DRM_PLANE_TYPE_PRIMARY = s.crtc.top.plane_type i := fun e => hp e.symm
    by_cases hv : s.crtc.top.plane_flag i = PLANE_FLAG_VIDEO
    · simp only [nx_drm_crtc_create_planes_body, hu2, hp2, hok, hv, if_true, if_false,
        Bool.false_eq_true]
      exact ⟨_, rfl, rfl, [_], rfl, by simp⟩
    · simp only [nx_drm_crtc_create_planes_body, hu2, hp2, hok, hv, if_true, if_false,
        Bool.false_eq_true]
      exact ⟨_, rfl, rfl, [_], rfl, by simp⟩

theorem create_planes_loop_no_primary (pipe PLANE_VIDEO_NUM : Int)
    (plane_ret crtc_ret : Nat → Int) (slots : List Nat) :
    ∀ s : planes_state,
      (∀ i ∈ slots, s.crtc.top.plane_flag i ≠ PLANE_FLAG_UNKNOWN →
        s.crtc.top.plane_type i ≠ DRM_PLANE_TYPE_PRIMARY ∧ IS_ERR (plane_ret i) = false) →
      ∃ s1, nx_drm_crtc_create_planes_loop pipe PLANE_VIDEO_NUM plane_ret crtc_ret slots s
          = Except.ok s1 ∧ s1.crtc = s.crtc ∧
        ∃ added, s1.dev.trace = s.dev.trace ++ added ∧
          ∀ p k, Call.drm_crtc_init_with_planes p k ∉ added := by
  induction slots with
  | nil =>
    intro s _
    exact ⟨s, rfl, rfl, [], by simp, by simp⟩
  | cons i rest ih =>
    intro s h
    obtain ⟨s1, hb, hc1, a1, ht1, hn1⟩ :=
      create_planes_body_no_primary pipe PLANE_VIDEO_NUM (plane_ret i) (crtc_ret i) s i
        (h i (List.mem_cons_self _ _))
    have h2 : ∀ k ∈ rest, s1.crtc.top.plane_flag k ≠ PLANE_FLAG_UNKNOWN →
        s1.crtc.top.plane_type k ≠ DRM_PLANE_TYPE_PRIMARY ∧ IS_ERR (plane_ret k) = false := by
      intro k hk
      rw [hc1]
      exact h k (List.mem_cons_of_mem _ hk)
    obtain ⟨s2, hl, hc2, a2, ht2, hn2⟩ := ih s1 h2
    refine ⟨s2, ?_, hc2.trans hc1, a1 ++ a2, ?_, ?_⟩
    · simp only [nx_drm_crtc_create_planes_loop, hb]
      exact hl
    · rw [ht2, ht1, List.append_assoc]
    · intro p k hmem
      rcases List.mem_append.mp hmem with hm | hm
      · exact hn1 p k hm
      · exact hn2 p k hm

/-- C9, refuted as stated: for the topologies parsed from the plane names "rgb",
"video" and from "rgb" alone, which have no PRIMARY slot, `nx_drm_crtc_create_planes`
and `nx_drm_crtc_init` return 0 (success), and no CRTC registration call was made. -/
theorem create_planes_without_primary_succeeds :
    (nx_drm_crtc_create_planes (crtc_with ["rgb", "video"]) dev0 0 3 (fun _ => 0)
      (fun _ => 0)).1 = 0 ∧
    (nx_drm_crtc_create_planes (crtc_with ["rgb", "video"]) dev0 0 3 (fun _ => 0)
      (fun _ => 0)).2.2.trace =
      [Call.nx_drm_plane_init 0 1 DRM_PLANE_TYPE_OVERLAY 0 (some 0),
       Call.nx_drm_plane_init 0 1 DRM_PLANE_TYPE_OVERLAY 3 (some 1),
       Call.drm_crtc_helper_add 0] ∧
    (nx_drm_crtc_init (tree_with [0] ["rgb"]) 3 (fun _ _ => 0) (fun _ _ => 0) dev0).1 = 0 ∧
    (nx_drm_crtc_init (tree_with [0] ["rgb"]) 3 (fun _ _ => 0) (fun _ _ => 0) dev0).2.trace =
      [Call.nx_drm_dp_crtc_init 0,
       Call.nx_drm_plane_init 0 1 DRM_PLANE_TYPE_OVERLAY 0 (some 0),
       Call.drm_crtc_helper_add 0] := by
  decide

/-- C9, amended: for every topology whose valid (non-UNKNOWN) slots contain no PRIMARY
slot, `nx_drm_crtc_create_planes` makes no CRTC registration call
(`drm_crtc_init_with_planes`) and does not fail on that account: when the plane creation
of every valid slot succeeds it returns 0 and leaves the CRTC as it was. -/
theorem create_planes_without_primary (c : nx_drm_crtc) (d : drm_device)
    (pipe PLANE_VIDEO_NUM : Int) (plane_ret crtc_ret : Nat → Int)
    (hnp : ∀ i : Nat, (i : Int) < c.top.num_planes →
      c.top.plane_flag i ≠ PLANE_FLAG_UNKNOWN → c.top.plane_type i ≠ DRM_PLANE_TYPE_PRIMARY)
    (hok : ∀ i : Nat, (i : Int) < c.top.num_planes →
      c.top.plane_flag i ≠ PLANE_FLAG_UNKNOWN → IS_ERR (plane_ret i) = false) :
    (nx_drm_crtc_create_planes c d pipe PLANE_VIDEO_NUM plane_ret crtc_ret).1 = 0 ∧
    (nx_drm_crtc_create_planes c d pipe PLANE_VIDEO_NUM plane_ret crtc_ret).2.1 = c ∧
    ∃ added,
      (nx_drm_crtc_create_planes c d pipe PLANE_VIDEO_NUM plane_ret crtc_ret).2.2.trace
        = d.trace ++ added ∧
      ∀ p k, Call.drm_crtc_init_with_planes p k ∉ added := by
  have h : ∀ i ∈ List.range c.top.num_planes.toNat,
      c.top.plane_flag i ≠ PLANE_FLAG_UNKNOWN →
      c.top.plane_type i ≠ DRM_PLANE_TYPE_PRIMARY ∧ IS_ERR (plane_ret i) = false := by
    intro i hi hu
    have hlt : (i : Int) < c.top.num_planes := Int.lt_toNat.mp (List.mem_range.mp hi)
    exact ⟨hnp i hlt hu, hok i hlt hu⟩
  obtain ⟨s1, hl, hc, added, ht, hn⟩ :=
    create_planes_loop_no_primary pipe PLANE_VIDEO_NUM plane_ret crtc_ret
      (List.range c.top.num_planes.toNat) ⟨c, d, fun _ => none, 0⟩ h
  have heq : nx_drm_crtc_create_planes c d pipe PLANE_VIDEO_NUM plane_ret crtc_ret
      = (0, s1.crtc, s1.dev.log (Call.drm_crtc_helper_add pipe)) := by
    simp only [nx_drm_crtc_create_planes, hl]
  rw [heq]
  refine ⟨rfl, hc, added ++ [Call.drm_crtc_helper_add pipe], ?_, ?_⟩
  · simp only [drm_device.log, ht, List.append_assoc]
  · intro p k hmem
    rcases List.mem_append.mp hmem with hm | hm
    · exact hn p k hm
    · simp at hm

/-- Witness of C9 amended: the topology parsed from "rgb", "video", "bogus", every plane
creation succeeding. -/
theorem create_planes_without_primary_witness :
    (nx_drm_crtc_create_planes (crtc_with ["rgb", "video", "bogus"]) dev0 0 3 (fun _ => 0)
      (fun _ => 0)).1 = 0 :=
  (create_planes_without_primary (crtc_with ["rgb", "video", "bogus"]) dev0 0 3 (fun _ => 0)
    (fun _ => 0)
    (fun i hi _ => by
      have h3 : i < 3 := by
        have : (i : Int) < 3 := hi
        omega
      interval_cases i <;> decide)
    (fun _ _ _ => rfl)).1

/-- C8, evaluated at the failing input: with the one-slot topology "primary", the plane
creation succeeding and `drm_crtc_init_with_planes` returning -12,
`nx_drm_crtc_create_planes` returns -12 and its whole trace is the creation of the
primary plane and the failed registration: the created plane is never destroyed. With
"rgb", "primary" the same failure destroys the overlay plane of slot 0 but not the
primary plane of slot 1. -/
theorem create_planes_registration_failure_leaks_primary :
    (nx_drm_crtc_create_planes (crtc_with ["primary"]) dev0 0 3 (fun _ => 0)
      (fun _ => -12)).1 = -12 ∧
    (nx_drm_crtc_create_planes (crtc_with ["primary"]) dev0 0 3 (fun _ => 0)
      (fun _ => -12)).2.2.trace =
      [Call.nx_drm_plane_init 0 1 DRM_PLANE_TYPE_PRIMARY 0 (some 0),
       Call.drm_crtc_init_with_planes 0 0] ∧
    (nx_drm_crtc_create_planes (crtc_with ["rgb", "primary"]) dev0 0 3 (fun _ => 0)
      (fun _ => -12)).2.2.trace =
      [Call.nx_drm_plane_init 0 1 DRM_PLANE_TYPE_OVERLAY 0 (some 0),
       Call.nx_drm_plane_init 0 1 DRM_PLANE_TYPE_PRIMARY 1 (some 1),
       Call.drm_crtc_init_with_planes 0 1,
       Call.plane_destroy 0 0] := by
  decide

/-! ### CRTC registry -/

/-- C1, evaluated at the failing input: two pipelines (ports 0 and 1, topology
"primary"), the plane creation of pipeline 1 failing with -12. `nx_drm_crtc_init`
returns -12 and frees the CRTC object of pipeline 0, but the registry entries 0 and 1
still hold the two CRTC objects and `num_crtcs` is 2. When instead the topology
construction of pipeline 1 fails, it returns -22 at once: nothing is freed and both
registry entries stay set. -/
theorem init_failure_leaves_registry_entries :
    (nx_drm_crtc_init (tree_with [0, 1] ["primary"]) 3 plane_ret_fail_second
      (fun _ _ => 0) dev0).1 = -12 ∧
    (nx_drm_crtc_init (tree_with [0, 1] ["primary"]) 3 plane_ret_fail_second
      (fun _ _ => 0) dev0).2.priv.crtcs 0 = some 0 ∧
    (nx_drm_crtc_init (tree_with [0, 1] ["primary"]) 3 plane_ret_fail_second
      (fun _ _ => 0) dev0).2.priv.crtcs 1 = some 1 ∧
    (nx_drm_crtc_init (tree_with [0, 1] ["primary"]) 3 plane_ret_fail_second
      (fun _ _ => 0) dev0).2.priv.num_crtcs = 2 ∧
    (nx_drm_crtc_init (tree_with [0, 1] ["primary"]) 3 plane_ret_fail_second
      (fun _ _ => 0) dev0).2.freed = [0] ∧
    (nx_drm_crtc_init tree_without_port1 3 (fun _ _ => 0) (fun _ _ => 0) dev0).1 = -22 ∧
    (nx_drm_crtc_init tree_without_port1 3 (fun _ _ => 0) (fun _ _ => 0) dev0).2.priv.crtcs 0
      = some 0 ∧
    (nx_drm_crtc_init tree_without_port1 3 (fun _ _ => 0) (fun _ _ => 0) dev0).2.priv.crtcs 1
      = some 1 ∧
    (nx_drm_crtc_init tree_without_port1 3 (fun _ _ => 0) (fun _ _ => 0) dev0).2.freed = [] := by
  decide

/-- C10, evaluated at the failing input: ports discovered in the order 1, 0.
`nx_drm_crtc_init` succeeds and puts the CRTC of pipe 1 (handle 0) in registry slot 0
and the CRTC of pipe 0 (handle 1) in slot 1; destroying the CRTC with handle 0 then
leaves slot 0 holding it and empties slot 1, the slot of the other CRTC. With the ports
in the order 0, 1 the same call empties slot 0 and keeps slot 1. -/
theorem destroy_clears_slot_of_pipe_number :
    (nx_drm_crtc_init (tree_with [1, 0] ["primary"]) 3 (fun _ _ => 0) (fun _ _ => 0) dev0).1
      = 0 ∧
    (nx_drm_crtc_init (tree_with [1, 0] ["primary"]) 3 (fun _ _ => 0)
      (fun _ _ => 0) dev0).2.priv.crtcs 0 = some 0 ∧
    (nx_drm_crtc_init (tree_with [1, 0] ["primary"]) 3 (fun _ _ => 0)
      (fun _ _ => 0) dev0).2.priv.crtcs 1 = some 1 ∧
    ((nx_drm_crtc_init (tree_with [1, 0] ["primary"]) 3 (fun _ _ => 0)
      (fun _ _ => 0) dev0).2.crtc_objs.map (fun o => o.pipe)) = [1, 0] ∧
    (nx_drm_crtc_destroy (nx_drm_crtc_init (tree_with [1, 0] ["primary"]) 3 (fun _ _ => 0)
      (fun _ _ => 0) dev0).2 0).map (fun d => (d.priv.crtcs 0, d.priv.crtcs 1))
      = some (some 0, none) ∧
    (nx_drm_crtc_destroy (nx_drm_crtc_init (tree_with [0, 1] ["primary"]) 3 (fun _ _ => 0)
      (fun _ _ => 0) dev0).2 0).map (fun d => (d.priv.crtcs 0, d.priv.crtcs 1))
      = some (none, some 1) := by
  decide

/-! ### DPMS transitions and commit -/

/-- C11 (DPMS rejects unrecognized modes atomically): a DPMS request for a mode `m` that
differs from the current mode and is none of ON, STANDBY, SUSPEND, OFF leaves the CRTC,
hence `dpms_mode`, unchanged; the only calls it adds to the trace are the acquisition of
the mode-change lock followed by its release, so no back-end dpms call is issued and the
lock is released on return. -/
theorem dpms_unrecognized_mode_rejected (c : nx_drm_crtc) (d : drm_device) (m : Int)
    (hne : m ≠ c.dpms_mode)
    (hm : m ≠ DRM_MODE_DPMS_ON ∧ m ≠ DRM_MODE_DPMS_STANDBY ∧ m ≠ DRM_MODE_DPMS_SUSPEND ∧
      m ≠ DRM_MODE_DPMS_OFF) :
    (nx_drm_crtc_dpms c d m).1 = c ∧
    (nx_drm_crtc_dpms c d m).1.dpms_mode = c.dpms_mode ∧
    (nx_drm_crtc_dpms c d m).2.trace = d.trace ++ [Call.mutex_lock, Call.mutex_unlock] ∧
    (∀ p mode, Call.nx_drm_dp_crtc_dpms p mode ∉ [Call.mutex_lock, Call.mutex_unlock]) := by
  obtain ⟨h0, h1, h2, h3⟩ := hm
  have hne2 : ¬ c.dpms_mode = m := fun e => hne e.symm
  have h : nx_drm_crtc_dpms c d m = (c, (d.log Call.mutex_lock).log Call.mutex_unlock) := by
    simp [nx_drm_crtc_dpms, hne2, h0, h1, h2, h3]
  rw [h]
  refine ⟨rfl, rfl, ?_, ?_⟩
  · simp [drm_device.log]
  · intro p mode hmem
    simp at hmem

/-- Witness of C11: DPMS with the unrecognized mode 7 on a CRTC that is ON. -/
theorem dpms_unrecognized_mode_rejected_witness :
    (nx_drm_crtc_dpms (crtc_in DRM_MODE_DPMS_ON) dev0 7).1 = crtc_in DRM_MODE_DPMS_ON ∧
    (nx_drm_crtc_dpms (crtc_in DRM_MODE_DPMS_ON) dev0 7).2.trace
      = dev0.trace ++ [Call.mutex_lock, Call.mutex_unlock] :=
  have h := dpms_unrecognized_mode_rejected (crtc_in DRM_MODE_DPMS_ON) dev0 7 (by decide)
    (by decide)
  ⟨h.1, h.2.2.1⟩

/-- C12 (DPMS transition): a DPMS request for a mode `m` among ON, STANDBY, SUSPEND, OFF
that differs from the current mode sets `dpms_mode` to `m` and changes nothing else of
the CRTC; it adds to the trace exactly the acquisition of the mode-change lock, one
back-end dpms call carrying `m`, and the release of the lock, in that order. -/
theorem dpms_transition (c : nx_drm_crtc) (d : drm_device) (m : Int)
    (hne : m ≠ c.dpms_mode)
    (hm : m = DRM_MODE_DPMS_ON ∨ m = DRM_MODE_DPMS_STANDBY ∨ m = DRM_MODE_DPMS_SUSPEND ∨
      m = DRM_MODE_DPMS_OFF) :
    (nx_drm_crtc_dpms c d m).1 = { c with dpms_mode := m } ∧
    (nx_drm_crtc_dpms c d m).1.dpms_mode = m ∧
    (nx_drm_crtc_dpms c d m).2.trace = d.trace ++
      [Call.mutex_lock, Call.nx_drm_dp_crtc_dpms c.pipe m, Call.mutex_unlock] := by
  have hne2 : ¬ c.dpms_mode = m := fun e => hne e.symm
  have h : nx_drm_crtc_dpms c d m = ({ c with dpms_mode := m },
      ((d.log Call.mutex_lock).log (Call.nx_drm_dp_crtc_dpms c.pipe m)).log
        Call.mutex_unlock) := by
    by_cases h0 : m = DRM_MODE_DPMS_ON
    · subst h0
      simp [nx_drm_crtc_dpms, hne2]
    · have h1 : m = DRM_MODE_DPMS_STANDBY ∨ m = DRM_MODE_DPMS_SUSPEND ∨
          m = DRM_MODE_DPMS_OFF := by
        rcases hm with h | h
        · exact absurd h h0
        · exact h
      simp [nx_drm_crtc_dpms, hne2, h0, h1]
  rw [h]
  refine ⟨rfl, rfl, ?_⟩
  simp [drm_device.log]

/-- Witness of C12: DPMS(STANDBY) on a CRTC that is OFF. -/
theorem dpms_transition_witness :
    (nx_drm_crtc_dpms (crtc_in DRM_MODE_DPMS_OFF) dev0 1).1.dpms_mode = 1 ∧
    (nx_drm_crtc_dpms (crtc_in DRM_MODE_DPMS_OFF) dev0 1).2.trace = dev0.trace ++
      [Call.mutex_lock, Call.nx_drm_dp_crtc_dpms (crtc_in DRM_MODE_DPMS_OFF).pipe 1,
       Call.mutex_unlock] :=
  have h := dpms_transition (crtc_in DRM_MODE_DPMS_OFF) dev0 1 (by decide)
    (Or.inr (Or.inl rfl))
  ⟨h.2.1, h.2.2⟩

/-- C13 (commit auto-powers-on): after `nx_drm_crtc_commit` the CRTC is ON and differs
from the CRTC before at most in `dpms_mode`; the calls added to the trace are exactly
one back-end commit call, preceded, when and only when the CRTC was not ON before, by the
mode-change lock, one back-end dpms(ON) call and the release of the lock. -/
theorem commit_powers_on (c : nx_drm_crtc) (d : drm_device) :
    (nx_drm_crtc_commit c d).1.dpms_mode = DRM_MODE_DPMS_ON ∧
    (nx_drm_crtc_commit c d).1 = { c with dpms_mode := DRM_MODE_DPMS_ON } ∧
    (nx_drm_crtc_commit c d).2.trace = d.trace ++
      (if c.dpms_mode = DRM_MODE_DPMS_ON then []
       else [Call.mutex_lock, Call.nx_drm_dp_crtc_dpms c.pipe DRM_MODE_DPMS_ON,
             Call.mutex_unlock]) ++
      [Call.nx_drm_dp_crtc_commit c.pipe] := by
  by_cases h : c.dpms_mode = DRM_MODE_DPMS_ON
  · have hc : ({ c with dpms_mode := DRM_MODE_DPMS_ON } : nx_drm_crtc) = c := by
      cases c
      simp only at h
      subst h
      rfl
    have hr : nx_drm_crtc_commit c d = (c, d.log (Call.nx_drm_dp_crtc_commit c.pipe)) := by
      simp [nx_drm_crtc_commit, h]
    rw [hr, hc]
    refine ⟨h, rfl, ?_⟩
    simp [drm_device.log, h]
  · have hr : nx_drm_crtc_commit c d = ({ c with dpms_mode := DRM_MODE_DPMS_ON },
        ((((d.log Call.mutex_lock).log
          (Call.nx_drm_dp_crtc_dpms c.pipe DRM_MODE_DPMS_ON)).log Call.mutex_unlock).log
          (Call.nx_drm_dp_crtc_commit c.pipe))) := by
      simp [nx_drm_crtc_commit, nx_drm_crtc_dpms, h]
    rw [hr]
    refine ⟨rfl, rfl, ?_⟩
    simp [drm_device.log, h]

/-! ### Page flip: acceptance and admission -/

/-- C14 (page-flip acceptance): on a CRTC that is ON with no flip pending, a page flip to
`fb` with a completion event whose vblank acquisition and back-end update succeed
returns 0; the pending event is the given event with its pipe set to the CRTC's pipe,
the primary framebuffer is `fb` and nothing else of the CRTC changes; exactly one vblank
reference is taken, on the CRTC's pipe; and exactly one back-end plane-update is issued,
for `fb`, whose width and height arguments are the C expressions `fb->width - crtc->x`
and `fb->height - crtc->y`: the differences `fb.width - crtc.x` and `fb.height - crtc.y`
themselves whenever these are not negative, and what the back end receives is these
differences whenever they fit an `int`. -/
theorem page_flip_acceptance (c : nx_drm_crtc) (d : drm_device) (fb : drm_framebuffer)
    (ev : drm_pending_vblank_event)
    (hon : c.dpms_mode = DRM_MODE_DPMS_ON) (hev : c.event = none) :
    (nx_drm_crtc_page_flip c d fb (some ev) 0 0).ret = 0 ∧
    (nx_drm_crtc_page_flip c d fb (some ev) 0 0).crtc =
      { c with event := some { ev with pipe := c.pipe }, primary_fb := some fb } ∧
    (nx_drm_crtc_page_flip c d fb (some ev) 0 0).crtc.event = some { ev with pipe := c.pipe } ∧
    (nx_drm_crtc_page_flip c d fb (some ev) 0 0).crtc.primary_fb = some fb ∧
    (nx_drm_crtc_page_flip c d fb (some ev) 0 0).dev.vblank_refcount c.pipe
      = d.vblank_refcount c.pipe + 1 ∧
    (∀ p, p ≠ c.pipe →
      (nx_drm_crtc_page_flip c d fb (some ev) 0 0).dev.vblank_refcount p
        = d.vblank_refcount p) ∧
    (nx_drm_crtc_page_flip c d fb (some ev) 0 0).dev.trace = d.trace ++
      [Call.spin_lock_irq, Call.drm_vblank_get c.pipe, Call.spin_unlock_irq,
       Call.nx_drm_dp_plane_update c.pipe fb 0 0 (u32_sub fb.width c.x)
         (u32_sub fb.height c.y) c.x c.y (u32_sub fb.width c.x) (u32_sub fb.height c.y)] ∧
    u32_sub fb.width c.x = ((fb.width : Int) - c.x) % 2 ^ 32 ∧
    u32_sub fb.height c.y = ((fb.height : Int) - c.y) % 2 ^ 32 ∧
    (0 ≤ (fb.width : Int) - c.x → (fb.width : Int) - c.x < 2 ^ 32 →
      u32_sub fb.width c.x = (fb.width : Int) - c.x) ∧
    (0 ≤ (fb.height : Int) - c.y → (fb.height : Int) - c.y < 2 ^ 32 →
      u32_sub fb.height c.y = (fb.height : Int) - c.y) ∧
    Call.received_size (Call.nx_drm_dp_plane_update c.pipe fb 0 0 (u32_sub fb.width c.x)
        (u32_sub fb.height c.y) c.x c.y (u32_sub fb.width c.x) (u32_sub fb.height c.y))
      = some (backend_int_param (u32_sub fb.width c.x),
              backend_int_param (u32_sub fb.height c.y)) ∧
    (-2147483648 ≤ (fb.width : Int) - c.x → (fb.width : Int) - c.x < 2147483648 →
      backend_int_param (u32_sub fb.width c.x) = (fb.width : Int) - c.x) ∧
    (-2147483648 ≤ (fb.height : Int) - c.y → (fb.height : Int) - c.y < 2147483648 →
      backend_int_param (u32_sub fb.height c.y) = (fb.height : Int) - c.y) := by
  have h1 : nx_drm_crtc_page_flip c d fb (some ev) 0 0 =
      ⟨0, { c with event := some ⟨ev.id, c.pipe⟩, primary_fb := some fb },
        (((drm_vblank_get (d.log Call.spin_lock_irq) c.pipe 0).log Call.spin_unlock_irq).log
          (Call.nx_drm_dp_plane_update c.pipe fb 0 0 (u32_sub fb.width c.x)
            (u32_sub fb.height c.y) c.x c.y (u32_sub fb.width c.x) (u32_sub fb.height c.y))),
        some ⟨ev.id, c.pipe⟩⟩ := by
    simp [nx_drm_crtc_page_flip, hon, hev]
  rw [h1]
  refine ⟨rfl, rfl, rfl, rfl, ?_, ?_, ?_, ?_, ?_, ?_, ?_, rfl, ?_, ?_⟩
  · simp [drm_vblank_get, drm_device.log, arr_set_int]
  · intro p hp
    simp [drm_vblank_get, drm_device.log, arr_set_int, hp]
  · simp [drm_vblank_get, drm_device.log]
  · simp [u32_sub]
  · simp [u32_sub]
  · intro h0 h2
    exact Int.emod_eq_of_lt h0 h2
  · intro h0 h2
    exact Int.emod_eq_of_lt h0 h2
  · exact backend_int_param_u32_sub fb.width c.x
  · exact backend_int_param_u32_sub fb.height c.y

/-- Witness of C14: a flip from `fb800` to `fb1024` on a CRTC at (50, 100); the
plane-update carries the width 1024 - 50 and the height 768 - 100. -/
theorem page_flip_acceptance_witness :
    (nx_drm_crtc_page_flip (crtc_at 50 100) dev0 fb1024 (some ⟨7, 5⟩) 0 0).ret = 0 ∧
    (nx_drm_crtc_page_flip (crtc_at 50 100) dev0 fb1024 (some ⟨7, 5⟩) 0 0).crtc.event
      = some ⟨7, 0⟩ ∧
    (nx_drm_crtc_page_flip (crtc_at 50 100) dev0 fb1024 (some ⟨7, 5⟩) 0 0).dev.trace =
      dev0.trace ++
      [Call.spin_lock_irq, Call.drm_vblank_get (crtc_at 50 100).pipe, Call.spin_unlock_irq,
       Call.nx_drm_dp_plane_update (crtc_at 50 100).pipe fb1024 0 0
         (u32_sub fb1024.width (crtc_at 50 100).x) (u32_sub fb1024.height (crtc_at 50 100).y)
         (crtc_at 50 100).x (crtc_at 50 100).y
         (u32_sub fb1024.width (crtc_at 50 100).x)
         (u32_sub fb1024.height (crtc_at 50 100).y)] ∧
    u32_sub fb1024.width (crtc_at 50 100).x = (fb1024.width : Int) - (crtc_at 50 100).x ∧
    u32_sub fb1024.height (crtc_at 50 100).y = (fb1024.height : Int) - (crtc_at 50 100).y :=
  have h := page_flip_acceptance (crtc_at 50 100) dev0 fb1024 ⟨7, 5⟩ rfl rfl
  ⟨h.1, h.2.2.1, h.2.2.2.2.2.2.1,
   h.2.2.2.2.2.2.2.2.2.1 (by decide) (by decide),
   h.2.2.2.2.2.2.2.2.2.2.1 (by decide) (by decide)⟩

/-- C15 (page-flip admission gate): when `dpms_mode` is STANDBY, SUSPEND or OFF, or the
completion event is absent, or a flip is already pending, or the vblank acquisition
fails (`drm_vblank_get` returns a negative errno), `nx_drm_crtc_page_flip` returns a
negative status and leaves the CRTC unchanged (primary framebuffer, pending event and
`dpms_mode` included), the vblank reference counts unchanged, and adds no back-end call
to the trace. -/
theorem page_flip_admission_gate (c : nx_drm_crtc) (d : drm_device) (fb : drm_framebuffer)
    (event : Option drm_pending_vblank_event) (vblank_ret be_ret : Int)
    (h : (c.dpms_mode = DRM_MODE_DPMS_STANDBY ∨ c.dpms_mode = DRM_MODE_DPMS_SUSPEND ∨
          c.dpms_mode = DRM_MODE_DPMS_OFF) ∨
        event = none ∨ c.event ≠ none ∨ vblank_ret < 0) :
    (nx_drm_crtc_page_flip c d fb event vblank_ret be_ret).ret < 0 ∧
    (nx_drm_crtc_page_flip c d fb event vblank_ret be_ret).crtc = c ∧
    (nx_drm_crtc_page_flip c d fb event vblank_ret be_ret).crtc.primary_fb = c.primary_fb ∧
    (nx_drm_crtc_page_flip c d fb event vblank_ret be_ret).crtc.event = c.event ∧
    (nx_drm_crtc_page_flip c d fb event vblank_ret be_ret).crtc.dpms_mode = c.dpms_mode ∧
    (nx_drm_crtc_page_flip c d fb event vblank_ret be_ret).dev.vblank_refcount
      = d.vblank_refcount ∧
    ∃ added, (nx_drm_crtc_page_flip c d fb event vblank_ret be_ret).dev.trace
        = d.trace ++ added ∧
      ∀ call ∈ added, Call.is_backend call = false := by
  have hinval : -EINVAL < 0 := by decide
  have hbusy : -EBUSY < 0 := by decide
  by_cases hd : c.dpms_mode > DRM_MODE_DPMS_ON
  · have hr : nx_drm_crtc_page_flip c d fb event vblank_ret be_ret = ⟨-EINVAL, c, d, event⟩ := by
      simp [nx_drm_crtc_page_flip, hd]
    rw [hr]
    exact ⟨hinval, rfl, rfl, rfl, rfl, rfl, [], by simp, by simp⟩
  · have hmode : ¬ (c.dpms_mode = DRM_MODE_DPMS_STANDBY ∨ c.dpms_mode = DRM_MODE_DPMS_SUSPEND ∨
          c.dpms_mode = DRM_MODE_DPMS_OFF) := by
      intro hm
      apply hd
      rcases hm with e | e | e <;> rw [e] <;> decide
    cases event with
    | none =>
      have hr : nx_drm_crtc_page_flip c d fb none vblank_ret be_ret = ⟨-EINVAL, c, d, none⟩ := by
        simp [nx_drm_crtc_page_flip, hd]
      rw [hr]
      exact ⟨hinval, rfl, rfl, rfl, rfl, rfl, [], by simp, by simp⟩
    | some ev =>
      by_cases hp : c.event.isSome = true
      · have hr : nx_drm_crtc_page_flip c d fb (some ev) vblank_ret be_ret =
            ⟨-EBUSY, c, (d.log Call.spin_lock_irq).log Call.spin_unlock_irq, some ev⟩ := by
          simp [nx_drm_crtc_page_flip, hd, hp]
        rw [hr]
        refine ⟨hbusy, rfl, rfl, rfl, rfl, rfl,
          [Call.spin_lock_irq, Call.spin_unlock_irq], by simp [drm_device.log], ?_⟩
        intro call hc
        simp at hc
        rcases hc with e | e <;> rw [e] <;> rfl
      · have hnone : c.event = none := by
          cases he : c.event with
          | none => rfl
          | some e => simp [he] at hp
        have hv : vblank_ret < 0 := by
          rcases h with h | h | h | h
          · exact absurd h hmode
          · exact absurd h (by simp)
          · exact absurd hnone h
          · exact h
        have hv0 : vblank_ret ≠ 0 := ne_of_lt hv
        have hr : nx_drm_crtc_page_flip c d fb (some ev) vblank_ret be_ret =
            ⟨vblank_ret, c,
              ((d.log Call.spin_lock_irq).log (Call.drm_vblank_get c.pipe)).log
                Call.spin_unlock_irq, some ev⟩ := by
          simp [nx_drm_crtc_page_flip, hd, hnone, hv0, drm_vblank_get]
        rw [hr]
        refine ⟨hv, rfl, rfl, rfl, rfl, rfl,
          [Call.spin_lock_irq, Call.drm_vblank_get c.pipe, Call.spin_unlock_irq],
          by simp [drm_device.log], ?_⟩
        intro call hc
        simp at hc
        rcases hc with e | e | e <;> rw [e] <;> rfl

/-- Witness of C15: a CRTC that is OFF, an absent event, a pending flip, and a vblank
acquisition failing with -22. -/
theorem page_flip_admission_gate_witness :
    (nx_drm_crtc_page_flip (crtc_in DRM_MODE_DPMS_OFF) dev0 fb1024 (some ⟨7, 0⟩) 0 0).ret < 0 ∧
    (nx_drm_crtc_page_flip (crtc_in DRM_MODE_DPMS_ON) dev0 fb1024 none 0 0).ret < 0 ∧
    (nx_drm_crtc_page_flip (crtc_flipping DRM_MODE_DPMS_ON) dev0 fb1024 (some ⟨7, 0⟩) 0 0).ret
      < 0 ∧
    (nx_drm_crtc_page_flip (crtc_in DRM_MODE_DPMS_ON) dev0 fb1024 (some ⟨7, 0⟩) (-22) 0).ret
      < 0 ∧
    (nx_drm_crtc_page_flip (crtc_in DRM_MODE_DPMS_ON) dev0 fb1024 (some ⟨7, 0⟩) (-22) 0).crtc
      = crtc_in DRM_MODE_DPMS_ON :=
  ⟨(page_flip_admission_gate (crtc_in DRM_MODE_DPMS_OFF) dev0 fb1024 (some ⟨7, 0⟩) 0 0
      (Or.inl (Or.inr (Or.inr rfl)))).1,
   (page_flip_admission_gate (crtc_in DRM_MODE_DPMS_ON) dev0 fb1024 none 0 0
      (Or.inr (Or.inl rfl))).1,
   (page_flip_admission_gate (crtc_flipping DRM_MODE_DPMS_ON) dev0 fb1024 (some ⟨7, 0⟩) 0 0
      (Or.inr (Or.inr (Or.inl (by decide))))).1,
   (page_flip_admission_gate (crtc_in DRM_MODE_DPMS_ON) dev0 fb1024 (some ⟨7, 0⟩) (-22) 0
      (Or.inr (Or.inr (Or.inr (by decide))))).1,
   (page_flip_admission_gate (crtc_in DRM_MODE_DPMS_ON) dev0 fb1024 (some ⟨7, 0⟩) (-22) 0
      (Or.inr (Or.inr (Or.inr (by decide))))).2.1⟩

/-! ### Role mapping -/

theorem parse_slot_num_planes (top : dp_plane_top) (i : Nat) (s : String) :
    (nx_drm_crtc_parse_slot top i s).num_planes = top.num_planes := by
  unfold nx_drm_crtc_parse_slot
  split_ifs <;> rfl

theorem parse_slot_other_slot (top : dp_plane_top) (i k : Nat) (s : String) (hk : k ≠ i) :
    (nx_drm_crtc_parse_slot top i s).plane_flag k = top.plane_flag k ∧
    (nx_drm_crtc_parse_slot top i s).plane_type k = top.plane_type k := by
  unfold nx_drm_crtc_parse_slot
  split_ifs <;> simp [arr_set, hk]

theorem parse_slot_same_slot (top top1 : dp_plane_top) (k : Nat) (s : String)
    (ht : top1.plane_type k = top.plane_type k) :
    (nx_drm_crtc_parse_slot top1 k s).plane_flag k
      = (nx_drm_crtc_parse_slot top k s).plane_flag k ∧
    (nx_drm_crtc_parse_slot top1 k s).plane_type k
      = (nx_drm_crtc_parse_slot top k s).plane_type k := by
  unfold nx_drm_crtc_parse_slot
  split_ifs <;> simp [arr_set, ht]

theorem parse_loop_num_planes (strings : List String) :
    ∀ (i : Nat) (top : dp_plane_top),
      (nx_drm_crtc_parse_loop strings i top).num_planes = top.num_planes := by
  induction strings with
  | nil => intro i top; rfl
  | cons s rest ih =>
    intro i top
    simp only [nx_drm_crtc_parse_loop]
    rw [ih (i + 1) _]
    exact parse_slot_num_planes top i s

theorem parse_loop_below (strings : List String) :
    ∀ (i : Nat) (top : dp_plane_top) (k : Nat), k < i →
      (nx_drm_crtc_parse_loop strings i top).plane_flag k = top.plane_flag k ∧
      (nx_drm_crtc_parse_loop strings i top).plane_type k = top.plane_type k := by
  induction strings with
  | nil => intro i top k _; exact ⟨rfl, rfl⟩
  | cons s rest ih =>
    intro i top k hk
    simp only [nx_drm_crtc_parse_loop]
    obtain ⟨h1, h2⟩ := ih (i + 1) (nx_drm_crtc_parse_slot top i s) k (by omega)
    obtain ⟨h3, h4⟩ := parse_slot_other_slot top i k s (by omega)
    exact ⟨h1.trans h3, h2.trans h4⟩

theorem parse_loop_slot (strings : List String) :
    ∀ (i : Nat) (top : dp_plane_top) (j : Nat) (s : String), strings[j]? = some s →
      (nx_drm_crtc_parse_loop strings i top).plane_flag (i + j)
        = (nx_drm_crtc_parse_slot top (i + j) s).plane_flag (i + j) ∧
      (nx_drm_crtc_parse_loop strings i top).plane_type (i + j)
        = (nx_drm_crtc_parse_slot top (i + j) s).plane_type (i + j) := by
  induction strings with
  | nil => intro i top j s hj; simp at hj
  | cons s0 rest ih =>
    intro i top j s hj
    cases j with
    | zero =>
      simp only [List.getElem?_cons_zero, Option.some.injEq] at hj
      subst hj
      simp only [nx_drm_crtc_parse_loop, add_zero]
      exact parse_loop_below rest (i + 1) _ i (by omega)
    | succ j =>
      simp only [List.getElem?_cons_succ] at hj
      simp only [nx_drm_crtc_parse_loop]
      have hidx : i + (j + 1) = i + 1 + j := by omega
      rw [hidx]
      obtain ⟨h1, h2⟩ := ih (i + 1) (nx_drm_crtc_parse_slot top i s0) j s hj
      obtain ⟨_, h4⟩ := parse_slot_other_slot top i (i + 1 + j) s0 (by omega)
      obtain ⟨h5, h6⟩ := parse_slot_same_slot top (nx_drm_crtc_parse_slot top i s0)
        (i + 1 + j) s h4
      exact ⟨h1.trans h5, h2.trans h6⟩

/-- C17 (role mapping is total and lenient): when the port of the pipeline exists and
carries at most 10 plane names, `nx_drm_crtc_parse_dt` returns 0, sets `num_planes` to
the number of names, and maps every slot by its name: "primary" to (PRIMARY, RGB),
"cursor" to (CURSOR, RGB), "rgb" to (OVERLAY, RGB), "video" to (OVERLAY, VIDEO) and any
other name to the flag UNKNOWN, the later slots being mapped all the same; when the port
is absent it returns `-EINVAL` and leaves the CRTC, hence its topology, untouched. -/
theorem parse_dt_role_mapping (port_by_id : Int → Option port_props) (c : nx_drm_crtc)
    (pipe : Int) :
    (∀ (child : port_props) (names : List String), port_by_id pipe = some child →
      child.plane_names = some names → names.length ≤ 10 →
      (nx_drm_crtc_parse_dt port_by_id c pipe).1 = 0 ∧
      (nx_drm_crtc_parse_dt port_by_id c pipe).2.top.num_planes = (names.length : Int) ∧
      ∀ (i : Nat) (s : String), names[i]? = some s →
        (s = "primary" →
          (nx_drm_crtc_parse_dt port_by_id c pipe).2.top.plane_type i = DRM_PLANE_TYPE_PRIMARY ∧
          (nx_drm_crtc_parse_dt port_by_id c pipe).2.top.plane_flag i = PLANE_FLAG_RGB) ∧
        (s = "cursor" →
          (nx_drm_crtc_parse_dt port_by_id c pipe).2.top.plane_type i = DRM_PLANE_TYPE_CURSOR ∧
          (nx_drm_crtc_parse_dt port_by_id c pipe).2.top.plane_flag i = PLANE_FLAG_RGB) ∧
        (s = "rgb" →
          (nx_drm_crtc_parse_dt port_by_id c pipe).2.top.plane_type i = DRM_PLANE_TYPE_OVERLAY ∧
          (nx_drm_crtc_parse_dt port_by_id c pipe).2.top.plane_flag i = PLANE_FLAG_RGB) ∧
        (s = "video" →
          (nx_drm_crtc_parse_dt port_by_id c pipe).2.top.plane_type i = DRM_PLANE_TYPE_OVERLAY ∧
          (nx_drm_crtc_parse_dt port_by_id c pipe).2.top.plane_flag i = PLANE_FLAG_VIDEO) ∧
        (s ≠ "primary" → s ≠ "cursor" → s ≠ "rgb" → s ≠ "video" →
          (nx_drm_crtc_parse_dt port_by_id c pipe).2.top.plane_flag i = PLANE_FLAG_UNKNOWN)) ∧
    (port_by_id pipe = none → nx_drm_crtc_parse_dt port_by_id c pipe = (-EINVAL, c)) := by
  constructor
  · intro child names hport hnames hlen
    have htake : names.take 10 = names := List.take_of_length_le hlen
    simp only [nx_drm_crtc_parse_dt, hport, hnames, htake, true_and]
    refine ⟨?_, ?_⟩
    · rw [parse_loop_num_planes]
    · intro i s hi
      obtain ⟨hf, ht⟩ := parse_loop_slot names 0 _ i s hi
      simp only [zero_add] at hf ht
      rw [hf, ht]
      refine ⟨?_, ?_, ?_, ?_, ?_⟩
      · intro e; subst e; simp [nx_drm_crtc_parse_slot, arr_set]
      · intro e; subst e; simp [nx_drm_crtc_parse_slot, arr_set]
      · intro e; subst e; simp [nx_drm_crtc_parse_slot, arr_set]
      · intro e; subst e; simp [nx_drm_crtc_parse_slot, arr_set]
      · intro h1 h2 h3 h4
        have e1 : ¬ "primary" = s := fun e => h1 e.symm
        have e2 : ¬ "cursor" = s := fun e => h2 e.symm
        have e3 : ¬ "rgb" = s := fun e => h3 e.symm
        have e4 : ¬ "video" = s := fun e => h4 e.symm
        simp [nx_drm_crtc_parse_slot, arr_set, e1, e2, e3, e4]
  · intro hnone
    simp [nx_drm_crtc_parse_dt, hnone]

/-- Witness of C17: the names "cursor", "bogus", "video" on an existing port, and an
absent port. -/
theorem parse_dt_role_mapping_witness :
    (nx_drm_crtc_parse_dt (fun _ => some (port_with ["cursor", "bogus", "video"]))
      kzalloc_nx_drm_crtc 0).1 = 0 ∧
    (nx_drm_crtc_parse_dt (fun _ => some (port_with ["cursor", "bogus", "video"]))
      kzalloc_nx_drm_crtc 0).2.top.num_planes = ((3 : Nat) : Int) ∧
    (nx_drm_crtc_parse_dt (fun _ => some (port_with ["cursor", "bogus", "video"]))
      kzalloc_nx_drm_crtc 0).2.top.plane_flag 1 = PLANE_FLAG_UNKNOWN ∧
    (nx_drm_crtc_parse_dt (fun _ => some (port_with ["cursor", "bogus", "video"]))
      kzalloc_nx_drm_crtc 0).2.top.plane_flag 2 = PLANE_FLAG_VIDEO ∧
    nx_drm_crtc_parse_dt (fun _ => none) kzalloc_nx_drm_crtc 0 = (-EINVAL, kzalloc_nx_drm_crtc) :=
  have h := (parse_dt_role_mapping (fun _ => some (port_with ["cursor", "bogus", "video"]))
    kzalloc_nx_drm_crtc 0).1 (port_with ["cursor", "bogus", "video"])
    ["cursor", "bogus", "video"] rfl rfl (by decide)
  ⟨h.1, h.2.1,
   (h.2.2 1 "bogus" rfl).2.2.2.2 (by decide) (by decide) (by decide) (by decide),
   ((h.2.2 2 "video" rfl).2.2.2.1 rfl).2,
   (parse_dt_role_mapping (fun _ => none) kzalloc_nx_drm_crtc 0).2 rfl⟩

/-! ### Port discovery -/

theorem port_regs_skip (port : device_node) (rest : List device_node)
    (h : (if of_node_cmp port.name "port" = 0 then port.reg else none) = none) :
    port_regs (port :: rest) = port_regs rest := by
  simp only [port_regs, List.filterMap_cons, h]

theorem port_regs_take (port : device_node) (rest : List device_node) (r : Nat)
    (h : (if of_node_cmp port.name "port" = 0 then port.reg else none) = some r) :
    port_regs (port :: rest) = r :: port_regs rest := by
  simp only [port_regs, List.filterMap_cons, h]

theorem port_num_index_loop_spec (pipe_size : Int) (children : List device_node) :
    ∀ (pipe : Nat → Int) (num : Nat), (num : Int) < pipe_size →
      (of_graph_get_port_num_index_loop pipe_size children pipe num).2
        = min (num + (port_regs children).length) pipe_size.toNat ∧
      (∀ k, k < num ∨
          (of_graph_get_port_num_index_loop pipe_size children pipe num).2 ≤ k →
        (of_graph_get_port_num_index_loop pipe_size children pipe num).1 k = pipe k) ∧
      (∀ j reg, (port_regs children)[j]? = some reg →
        num + j < (of_graph_get_port_num_index_loop pipe_size children pipe num).2 →
        (of_graph_get_port_num_index_loop pipe_size children pipe num).1 (num + j)
          = u32_to_int reg) := by
  induction children with
  | nil =>
    intro pipe num hnum
    refine ⟨?_, ?_, ?_⟩
    · simp only [of_graph_get_port_num_index_loop, port_regs, List.filterMap_nil,
        List.length_nil, add_zero]
      omega
    · intro k _
      rfl
    · intro j reg hj
      simp [port_regs] at hj
  | cons port rest ih =>
    intro pipe num hnum
    by_cases hname : of_node_cmp port.name "port" = 0
    · cases hreg : port.reg with
      | none =>
        have hskip : port_regs (port :: rest) = port_regs rest :=
          port_regs_skip port rest (by simp [hname, hreg])
        have hloop : of_graph_get_port_num_index_loop pipe_size (port :: rest) pipe num
            = of_graph_get_port_num_index_loop pipe_size rest pipe num := by
          simp [of_graph_get_port_num_index_loop, hname, hreg]
        rw [hloop, hskip]
        exact ih pipe num hnum
      | some port_id =>
        have htake : port_regs (port :: rest) = port_id :: port_regs rest :=
          port_regs_take port rest port_id (by simp [hname, hreg])
        by_cases hfull : ((num + 1 : Nat) : Int) > pipe_size - 1
        · have hloop : of_graph_get_port_num_index_loop pipe_size (port :: rest) pipe num
              = (arr_set pipe num (u32_to_int port_id), num + 1) := by
            simp only [of_graph_get_port_num_index_loop, hname, hreg, ne_eq,
              not_true_eq_false, if_false, hfull, if_true]
          rw [hloop, htake]
          refine ⟨?_, ?_, ?_⟩
          · simp only [List.length_cons]
            omega
          · intro k hk
            have hne : k ≠ num := by
              rcases hk with hk | hk
              · omega
              · simp only at hk
                omega
            simp [arr_set, hne]
          · intro j reg hj hlt
            simp only at hlt
            have hj0 : j = 0 := by omega
            subst hj0
            simp only [List.getElem?_cons_zero, Option.some.injEq] at hj
            subst hj
            simp [arr_set]
        · have hloop : of_graph_get_port_num_index_loop pipe_size (port :: rest) pipe num
              = of_graph_get_port_num_index_loop pipe_size rest
                  (arr_set pipe num (u32_to_int port_id)) (num + 1) := by
            simp only [of_graph_get_port_num_index_loop, hname, hreg, ne_eq,
              not_true_eq_false, if_false, hfull]
          have hnum1 : ((num + 1 : Nat) : Int) < pipe_size := by omega
          obtain ⟨h1, h2, h3⟩ := ih (arr_set pipe num (u32_to_int port_id)) (num + 1) hnum1
          rw [hloop, htake]
          refine ⟨?_, ?_, ?_⟩
          · rw [h1]
            simp only [List.length_cons]
            omega
          · intro k hk
            have hk1 : k < num + 1 ∨
                (of_graph_get_port_num_index_loop pipe_size rest
                  (arr_set pipe num (u32_to_int port_id)) (num + 1)).2 ≤ k := by
              rcases hk with hk | hk
              · exact Or.inl (by omega)
              · exact Or.inr hk
            have hne : k ≠ num := by
              rcases hk with hk | hk
              · omega
              · rw [h1] at hk
                omega
            rw [h2 k hk1]
            simp [arr_set, hne]
          · intro j reg hj hlt
            cases j with
            | zero =>
              simp only [List.getElem?_cons_zero, Option.some.injEq] at hj
              subst hj
              rw [add_zero, h2 num (Or.inl (by omega))]
              simp [arr_set]
            | succ j =>
              simp only [List.getElem?_cons_succ] at hj
              have hidx : num + (j + 1) = num + 1 + j := by omega
              rw [hidx] at hlt ⊢
              exact h3 j reg hj hlt
    · have hskip : port_regs (port :: rest) = port_regs rest :=
        port_regs_skip port rest (by simp [hname])
      have hloop : of_graph_get_port_num_index_loop pipe_size (port :: rest) pipe num
          = of_graph_get_port_num_index_loop pipe_size rest pipe num := by
        simp [of_graph_get_port_num_index_loop, hname]
      rw [hloop, hskip]
      exact ih pipe num hnum

theorem u32_to_int_of_lt (n : Nat) (h : n < 2147483648) : u32_to_int n = (n : Int) := by
  have hmod : n % 4294967296 = n := Nat.mod_eq_of_lt (by omega)
  simp [u32_to_int, hmod, h]

/-- C18 (bounded port discovery): for every device tree and every capacity
`pipe_size ≥ 1`, `__of_graph_get_port_num_index` returns
`n = min (number of children named "port" with a readable reg) pipe_size`; for `k < n`
the entry `pipe[k]` holds the `reg` value of the `k`-th such child in declaration order
(stored through the conversion of `u32` to `int`, the value itself below `2 ^ 31`); and
every entry from index `n` on, in particular every index `≥ pipe_size`, is left as it
was. -/
theorem port_num_index_bounded (tree : of_tree) (pipe : Nat → Int) (pipe_size : Int)
    (hsize : 1 ≤ pipe_size) :
    (__of_graph_get_port_num_index tree pipe pipe_size).2
      = min ((port_regs tree.scanned).length : Int) pipe_size ∧
    (∀ (k reg : Nat), (port_regs tree.scanned)[k]? = some reg →
      (k : Int) < (__of_graph_get_port_num_index tree pipe pipe_size).2 →
      (__of_graph_get_port_num_index tree pipe pipe_size).1 k = u32_to_int reg) ∧
    (∀ (k reg : Nat), (port_regs tree.scanned)[k]? = some reg →
      (k : Int) < (__of_graph_get_port_num_index tree pipe pipe_size).2 →
      reg < 2147483648 →
      (__of_graph_get_port_num_index tree pipe pipe_size).1 k = (reg : Int)) ∧
    (∀ k : Nat, (__of_graph_get_port_num_index tree pipe pipe_size).2 ≤ (k : Int) →
      (__of_graph_get_port_num_index tree pipe pipe_size).1 k = pipe k) ∧
    (∀ k : Nat, pipe_size ≤ (k : Int) →
      (__of_graph_get_port_num_index tree pipe pipe_size).1 k = pipe k) := by
  have h0 : ((0 : Nat) : Int) < pipe_size := by
    simp only [Nat.cast_zero]
    omega
  obtain ⟨h1, h2, h3⟩ := port_num_index_loop_spec pipe_size tree.scanned pipe 0 h0
  have hr : __of_graph_get_port_num_index tree pipe pipe_size
      = ((of_graph_get_port_num_index_loop pipe_size tree.scanned pipe 0).1,
         ((of_graph_get_port_num_index_loop pipe_size tree.scanned pipe 0).2 : Int)) := rfl
  rw [hr]
  dsimp only
  simp only [zero_add] at h1 h3
  have hn : ((of_graph_get_port_num_index_loop pipe_size tree.scanned pipe 0).2 : Int)
      = min ((port_regs tree.scanned).length : Int) pipe_size := by
    rw [h1]
    omega
  have hstore : ∀ (k reg : Nat), (port_regs tree.scanned)[k]? = some reg →
      (k : Int) < ((of_graph_get_port_num_index_loop pipe_size tree.scanned pipe 0).2 : Int) →
      (of_graph_get_port_num_index_loop pipe_size tree.scanned pipe 0).1 k
        = u32_to_int reg := by
    intro k reg hk hlt
    exact h3 k reg hk (by exact_mod_cast hlt)
  refine ⟨hn, hstore, ?_, ?_, ?_⟩
  · intro k reg hk hlt hreg
    rw [hstore k reg hk hlt]
    exact u32_to_int_of_lt reg hreg
  · intro k hk
    exact h2 k (Or.inr (by exact_mod_cast hk))
  · intro k hk
    apply h2 k
    right
    have : ((of_graph_get_port_num_index_loop pipe_size tree.scanned pipe 0).2 : Int)
        ≤ (k : Int) := by
      rw [hn]
      omega
    exact_mod_cast this

/-- Witness of C18: three ports with reg 5, 7, 9 and room for two. -/
theorem port_num_index_bounded_witness :
    (__of_graph_get_port_num_index (tree_with [5, 7, 9] ["primary"]) (fun _ => 0) 2).2
      = min ((port_regs (tree_with [5, 7, 9] ["primary"]).scanned).length : Int) 2 ∧
    (__of_graph_get_port_num_index (tree_with [5, 7, 9] ["primary"]) (fun _ => 0) 2).1 1
      = ((7 : Nat) : Int) ∧
    (__of_graph_get_port_num_index (tree_with [5, 7, 9] ["primary"]) (fun _ => 0) 2).1 2 = 0 :=
  have h := port_num_index_bounded (tree_with [5, 7, 9] ["primary"]) (fun _ => 0) 2
    (by decide)
  ⟨h.1, h.2.2.1 1 7 (by decide) (by decide) (by decide), h.2.2.2.2 2 (by decide)⟩

/-! ### Plane numbering -/

theorem numbered_count_succ (top : dp_plane_top) (i : Nat) :
    ((List.range (i + 1)).filter (numbered_slot top)).length
      = ((List.range i).filter (numbered_slot top)).length
        + (if numbered_slot top i = true then 1 else 0) := by
  rw [List.range_succ, List.filter_append]
  by_cases h : numbered_slot top i = true <;> simp [List.filter_cons, h]

theorem create_planes_body_numbering (top : dp_plane_top) (pipe PLANE_VIDEO_NUM : Int)
    (plane_ret crtc_ret : Int) (s : planes_state) (i : Nat)
    (hflag : s.crtc.top.plane_flag = top.plane_flag)
    (htype : s.crtc.top.plane_type = top.plane_type)
    (hnum : s.num = (((List.range i).filter (numbered_slot top)).length : Int))
    (hplane : top.plane_flag i ≠ PLANE_FLAG_UNKNOWN → IS_ERR plane_ret = false)
    (hcrtc : top.plane_flag i ≠ PLANE_FLAG_UNKNOWN →
      top.plane_type i = DRM_PLANE_TYPE_PRIMARY → 0 ≤ crtc_ret) :
    ∃ s1, nx_drm_crtc_create_planes_body pipe PLANE_VIDEO_NUM plane_ret crtc_ret s i
        = Except.ok s1 ∧
      s1.crtc.top.plane_flag = top.plane_flag ∧
      s1.crtc.top.plane_type = top.plane_type ∧
      s1.num = (((List.range (i + 1)).filter (numbered_slot top)).length : Int) ∧
      ∃ added, s1.dev.trace = s.dev.trace ++ added ∧
        added.filter Call.is_plane_request =
          (if top.plane_flag i ≠ PLANE_FLAG_UNKNOWN
            then [spec_plane_request top pipe PLANE_VIDEO_NUM i] else []) := by
  have hfi : s.crtc.top.plane_flag i = top.plane_flag i := by rw [hflag]
  have hti : s.crtc.top.plane_type i = top.plane_type i := by rw [htype]
  rw [numbered_count_succ]
  by_cases hu : top.plane_flag i = PLANE_FLAG_UNKNOWN
  · refine ⟨s, ?_, hflag, htype, ?_, [], by simp, by simp [hu]⟩
    · simp [nx_drm_crtc_create_planes_body, hfi, hu]
    · simp [numbered_slot, hu, hnum]
  · have hok := hplane hu
    have hu2 : ¬ PLANE_FLAG_UNKNOWN = top.plane_flag i := fun e => hu e.symm
    by_cases hv : top.plane_flag i = PLANE_FLAG_VIDEO
    · have hcount : (if numbered_slot top i = true then 1 else 0) = 0 := by
        simp [numbered_slot, hv]
      by_cases hp : top.plane_type i = DRM_PLANE_TYPE_PRIMARY
      · have hc : ¬ (0 > crtc_ret) := not_lt.mpr (hcrtc hu hp)
        simp only [nx_drm_crtc_create_planes_body, hfi, hti, hu2, hok, hv, hp, hc, if_true,
          if_false, Bool.false_eq_true]
        refine ⟨_, rfl, hflag, htype, ?_,
          [Call.nx_drm_plane_init pipe (pipe_mask pipe) (top.plane_type i) PLANE_VIDEO_NUM (some i),
           Call.drm_crtc_init_with_planes pipe i], ?_, ?_⟩
        · simp [hnum, hcount]
        · simp [drm_device.log, hp]
        · simp [Call.is_plane_request, spec_plane_request, spec_plane_num, hv, hp, hu]
      · have hp2 : ¬ DRM_PLANE_TYPE_PRIMARY = top.plane_type i := fun e => hp e.symm
        simp only [nx_drm_crtc_create_planes_body, hfi, hti, hu2, hok, hv, hp2, if_true,
          if_false, Bool.false_eq_true]
        refine ⟨_, rfl, hflag, htype, ?_,
          [Call.nx_drm_plane_init pipe (pipe_mask pipe) (top.plane_type i) PLANE_VIDEO_NUM (some i)],
          ?_, ?_⟩
        · simp [hnum, hcount]
        · simp [drm_device.log]
        · simp [Call.is_plane_request, spec_plane_request, spec_plane_num, hv, hu]
    · have hcount : (if numbered_slot top i = true then 1 else 0) = 1 := by
        simp [numbered_slot, hv, hu]
      by_cases hp : top.plane_type i = DRM_PLANE_TYPE_PRIMARY
      · have hc : ¬ (0 > crtc_ret) := not_lt.mpr (hcrtc hu hp)
        simp only [nx_drm_crtc_create_planes_body, hfi, hti, hu2, hok, hv, hp, hc, if_true,
          if_false, Bool.false_eq_true]
        refine ⟨_, rfl, hflag, htype, ?_,
          [Call.nx_drm_plane_init pipe (pipe_mask pipe) (top.plane_type i) s.num (some i),
           Call.drm_crtc_init_with_planes pipe i], ?_, ?_⟩
        · simp [hnum, hcount]
        · simp [drm_device.log, hp]
        · simp [Call.is_plane_request, spec_plane_request, spec_plane_num, hv, hp, hu, hnum]
      · have hp2 : ¬ DRM_PLANE_TYPE_PRIMARY = top.plane_type i := fun e => hp e.symm
        simp only [nx_drm_crtc_create_planes_body, hfi, hti, hu2, hok, hv, hp2, if_true,
          if_false, Bool.false_eq_true]
        refine ⟨_, rfl, hflag, htype, ?_,
          [Call.nx_drm_plane_init pipe (pipe_mask pipe) (top.plane_type i) s.num (some i)],
          ?_, ?_⟩
        · simp [hnum, hcount]
        · simp [drm_device.log]
        · simp [Call.is_plane_request, spec_plane_request, spec_plane_num, hv, hu, hnum]

theorem create_planes_loop_numbering (top : dp_plane_top) (pipe PLANE_VIDEO_NUM : Int)
    (plane_ret crtc_ret : Nat → Int) (len : Nat) :
    ∀ (a : Nat) (s : planes_state),
      s.crtc.top.plane_flag = top.plane_flag →
      s.crtc.top.plane_type = top.plane_type →
      s.num = (((List.range a).filter (numbered_slot top)).length : Int) →
      (∀ i, a ≤ i → i < a + len → top.plane_flag i ≠ PLANE_FLAG_UNKNOWN →
        IS_ERR (plane_ret i) = false) →
      (∀ i, a ≤ i → i < a + len → top.plane_flag i ≠ PLANE_FLAG_UNKNOWN →
        top.plane_type i = DRM_PLANE_TYPE_PRIMARY → 0 ≤ crtc_ret i) →
      ∃ s1, nx_drm_crtc_create_planes_loop pipe PLANE_VIDEO_NUM plane_ret crtc_ret
          (List.range' a len) s = Except.ok s1 ∧
        ∃ added, s1.dev.trace = s.dev.trace ++ added ∧
          added.filter Call.is_plane_request =
            ((List.range' a len).filter
              (fun i => decide (top.plane_flag i ≠ PLANE_FLAG_UNKNOWN))).map
              (spec_plane_request top pipe PLANE_VIDEO_NUM) := by
  induction len with
  | zero =>
    intro a s _ _ _ _ _
    exact ⟨s, rfl, [], by simp, by simp⟩
  | succ len ih =>
    intro a s hflag htype hnum hplane hcrtc
    obtain ⟨s1, hb, hf1, ht1, hn1, a1, htr1, hfil1⟩ :=
      create_planes_body_numbering top pipe PLANE_VIDEO_NUM (plane_ret a) (crtc_ret a) s a
        hflag htype hnum (hplane a (le_refl a) (by omega)) (hcrtc a (le_refl a) (by omega))
    obtain ⟨s2, hl, a2, htr2, hfil2⟩ := ih (a + 1) s1 hf1 ht1 hn1
      (fun i h1 h2 => hplane i (by omega) (by omega))
      (fun i h1 h2 => hcrtc i (by omega) (by omega))
    refine ⟨s2, ?_, a1 ++ a2, ?_, ?_⟩
    · rw [List.range'_succ]
      simp only [nx_drm_crtc_create_planes_loop, hb]
      exact hl
    · rw [htr2, htr1, List.append_assoc]
    · rw [List.filter_append, hfil1, hfil2, List.range'_succ, List.filter_cons]
      by_cases hu : top.plane_flag a = PLANE_FLAG_UNKNOWN
      · simp [hu]
      · simp [hu]

/-- C16, refuted as stated: with the topology "primary", "rgb" every plane creation
succeeds, yet when the CRTC registration of the primary plane fails with -12 the plane
factory has requested a single plane, not one per non-UNKNOWN slot. -/
theorem create_planes_requests_stop_at_failed_registration :
    (∀ i : Nat, IS_ERR ((fun _ : Nat => (0 : Int)) i) = false) ∧
    ((nx_drm_crtc_create_planes (crtc_with ["primary", "rgb"]) dev0 0 3 (fun _ => 0)
      (fun _ => -12)).2.2.trace.filter Call.is_plane_request) =
      [Call.nx_drm_plane_init 0 1 DRM_PLANE_TYPE_PRIMARY 0 (some 0)] ∧
    spec_plane_requests (crtc_with ["primary", "rgb"]).top 0 3 =
      [Call.nx_drm_plane_init 0 1 DRM_PLANE_TYPE_PRIMARY 0 (some 0),
       Call.nx_drm_plane_init 0 1 DRM_PLANE_TYPE_OVERLAY 1 (some 1)] := by
  refine ⟨fun _ => rfl, ?_, ?_⟩
  · decide
  · decide

/-- C16, amended: for every topology and pipe index, when the plane creation of every
valid (non-UNKNOWN) slot succeeds and the CRTC registration of every PRIMARY slot
succeeds, `nx_drm_crtc_create_planes` returns 0 and the plane requests it has issued are
exactly one per non-UNKNOWN slot, in declaration order, each with pipe mask
`1 << pipe`, the slot's plane type, and as plane number the reserved `PLANE_VIDEO_NUM`
for a video slot and `k` for the `k`-th (0-based) non-video non-UNKNOWN slot; UNKNOWN
slots produce no request and consume no number. -/
theorem create_planes_numbering (c : nx_drm_crtc) (d : drm_device)
    (pipe PLANE_VIDEO_NUM : Int) (plane_ret crtc_ret : Nat → Int)
    (hplane : ∀ i : Nat, (i : Int) < c.top.num_planes →
      c.top.plane_flag i ≠ PLANE_FLAG_UNKNOWN → IS_ERR (plane_ret i) = false)
    (hcrtc : ∀ i : Nat, (i : Int) < c.top.num_planes →
      c.top.plane_flag i ≠ PLANE_FLAG_UNKNOWN →
      c.top.plane_type i = DRM_PLANE_TYPE_PRIMARY → 0 ≤ crtc_ret i) :
    (nx_drm_crtc_create_planes c d pipe PLANE_VIDEO_NUM plane_ret crtc_ret).1 = 0 ∧
    ∃ added,
      (nx_drm_crtc_create_planes c d pipe PLANE_VIDEO_NUM plane_ret crtc_ret).2.2.trace
        = d.trace ++ added ∧
      added.filter Call.is_plane_request
        = spec_plane_requests c.top pipe PLANE_VIDEO_NUM := by
  have hlt : ∀ i : Nat, i < 0 + c.top.num_planes.toNat → (i : Int) < c.top.num_planes := by
    intro i hi
    exact Int.lt_toNat.mp (by omega)
  obtain ⟨s1, hl, added, htr, hfil⟩ :=
    create_planes_loop_numbering c.top pipe PLANE_VIDEO_NUM plane_ret crtc_ret
      c.top.num_planes.toNat 0 ⟨c, d, fun _ => none, 0⟩ rfl rfl (by simp)
      (fun i _ h2 => hplane i (hlt i h2))
      (fun i _ h2 => hcrtc i (hlt i h2))
  rw [← List.range_eq_range'] at hl hfil
  have heq : nx_drm_crtc_create_planes c d pipe PLANE_VIDEO_NUM plane_ret crtc_ret
      = (0, s1.crtc, s1.dev.log (Call.drm_crtc_helper_add pipe)) := by
    simp only [nx_drm_crtc_create_planes, hl]
  rw [heq]
  refine ⟨rfl, added ++ [Call.drm_crtc_helper_add pipe], ?_, ?_⟩
  · simp only [drm_device.log, htr, List.append_assoc]
  · rw [List.filter_append, hfil]
    simp [spec_plane_requests, Call.is_plane_request]

/-- Witness of C16 amended: the topology "rgb", "bogus", "video", "primary", "cursor" on
pipe 1 with every call succeeding. -/
theorem create_planes_numbering_witness :
    (nx_drm_crtc_create_planes (crtc_with ["rgb", "bogus", "video", "primary", "cursor"])
      dev0 1 3 (fun _ => 0) (fun _ => 0)).1 = 0 ∧
    spec_plane_requests (crtc_with ["rgb", "bogus", "video", "primary", "cursor"]).top 1 3 =
      [Call.nx_drm_plane_init 1 2 DRM_PLANE_TYPE_OVERLAY 0 (some 0),
       Call.nx_drm_plane_init 1 2 DRM_PLANE_TYPE_OVERLAY 3 (some 2),
       Call.nx_drm_plane_init 1 2 DRM_PLANE_TYPE_PRIMARY 1 (some 3),
       Call.nx_drm_plane_init 1 2 DRM_PLANE_TYPE_CURSOR 2 (some 4)] :=
  ⟨(create_planes_numbering (crtc_with ["rgb", "bogus", "video", "primary", "cursor"])
      dev0 1 3 (fun _ => 0) (fun _ => 0) (fun _ _ _ => rfl)
      (fun _ _ _ _ => le_refl 0)).1,
   by decide⟩

/-! ### Disable -/

theorem dpms_off_sets_off (c : nx_drm_crtc) (d : drm_device) :
    (nx_drm_crtc_dpms c d DRM_MODE_DPMS_OFF).1.dpms_mode = DRM_MODE_DPMS_OFF := by
  by_cases h : c.dpms_mode = DRM_MODE_DPMS_OFF
  · simp [nx_drm_crtc_dpms, h]
  · have hoff : DRM_MODE_DPMS_OFF ≠ DRM_MODE_DPMS_ON := by decide
    simp [nx_drm_crtc_dpms, h, hoff]

theorem disable_planes_loop_spec (visits : drm_plane → Bool) (self : Nat)
    (disable_ret : drm_plane → Int) (plane_list : List drm_plane) :
    ∀ d : drm_device, ∃ added,
      (nx_drm_crtc_disable_planes visits self disable_ret plane_list d).trace
        = d.trace ++ added ∧
      added.filterMap Call.disabled_plane =
        (plane_list.filter (fun p => visits p && decide (p.crtc = some self))).map
          (fun p => p.id) ∧
      ∀ call ∈ added, (∃ p, call = Call.disable_plane p) ∨
        (∃ r, call = Call.DRM_ERROR_disable_plane r) := by
  induction plane_list with
  | nil =>
    intro d
    exact ⟨[], by simp [nx_drm_crtc_disable_planes], by simp, by simp⟩
  | cons plane rest ih =>
    intro d
    by_cases hv : visits plane = false
    · obtain ⟨added, h1, h2, h3⟩ := ih d
      refine ⟨added, ?_, ?_, h3⟩
      · simp only [nx_drm_crtc_disable_planes, hv, if_true]
        exact h1
      · simp [List.filter_cons, hv, h2]
    · have hv1 : visits plane = true := by
        cases hvis : visits plane with
        | false => exact absurd hvis hv
        | true => rfl
      by_cases ho : plane.crtc = some self
      · by_cases hr : disable_ret plane = 0
        · obtain ⟨added, h1, h2, h3⟩ := ih (d.log (Call.disable_plane plane.id))
          refine ⟨Call.disable_plane plane.id :: added, ?_, ?_, ?_⟩
          · simp only [nx_drm_crtc_disable_planes, hv1, ho, hr, ne_eq, not_true_eq_false,
              if_false, Bool.true_eq_false]
            rw [h1]
            simp [drm_device.log]
          · simp [List.filter_cons, hv1, ho, h2, Call.disabled_plane]
          · intro call hc
            rcases List.mem_cons.mp hc with e | e
            · exact Or.inl ⟨plane.id, e⟩
            · exact h3 call e
        · obtain ⟨added, h1, h2, h3⟩ := ih ((d.log (Call.disable_plane plane.id)).log
            (Call.DRM_ERROR_disable_plane (disable_ret plane)))
          refine ⟨Call.disable_plane plane.id ::
            Call.DRM_ERROR_disable_plane (disable_ret plane) :: added, ?_, ?_, ?_⟩
          · simp only [nx_drm_crtc_disable_planes, hv1, ho, hr, ne_eq, not_true_eq_false,
              not_false_eq_true, if_true, if_false, Bool.true_eq_false]
            rw [h1]
            simp [drm_device.log]
          · simp [List.filter_cons, hv1, ho, h2, Call.disabled_plane]
          · intro call hc
            rcases List.mem_cons.mp hc with e | e
            · exact Or.inl ⟨plane.id, e⟩
            · rcases List.mem_cons.mp e with e1 | e1
              · exact Or.inr ⟨disable_ret plane, e1⟩
              · exact h3 call e1
      · obtain ⟨added, h1, h2, h3⟩ := ih d
        refine ⟨added, ?_, ?_, h3⟩
        · simp only [nx_drm_crtc_disable_planes, hv1, ho, ne_eq, not_false_eq_true, if_true,
            Bool.true_eq_false, if_false]
          exact h1
        · simp [List.filter_cons, hv1, ho, h2]

/-- C19, refuted as stated: with the DRM core's legacy-plane iterator, which visits
overlay planes only, disabling CRTC 0 on a plane list holding its primary plane 10, its
overlay plane 11, its cursor plane 13 and the overlay plane 12 of CRTC 1 invokes
`disable_plane` on plane 11 alone, not on every plane CRTC 0 owns (10, 11, 13). -/
theorem disable_skips_primary_and_cursor_planes :
    ((nx_drm_crtc_disable (crtc_in DRM_MODE_DPMS_ON) dev0 0 legacy_overlay_only
        planes_of_two_crtcs (fun _ => 0)).2.trace.filterMap Call.disabled_plane) = [11] ∧
    (planes_of_two_crtcs.filter (fun p => decide (p.crtc = some 0))).map (fun p => p.id)
      = [10, 11, 13] := by
  decide

/-- C19, amended: after `nx_drm_crtc_disable` the CRTC is OFF, and after the DPMS(OFF)
transition `disable_plane` has been invoked exactly once, in list order, on every plane
of the global plane list that the legacy-plane iterator `drm_for_each_legacy_plane`
visits and whose owning CRTC is this CRTC, and on no other plane (neither a plane of
another CRTC nor a plane the iterator skips), whatever statuses the `disable_plane`
calls return; besides these calls the loop only reports the failed ones. -/
theorem disable_visited_owned_planes (c : nx_drm_crtc) (d : drm_device) (self : Nat)
    (visits : drm_plane → Bool) (plane_list : List drm_plane)
    (disable_ret : drm_plane → Int) :
    (nx_drm_crtc_disable c d self visits plane_list disable_ret).1.dpms_mode
      = DRM_MODE_DPMS_OFF ∧
    ∃ added,
      (nx_drm_crtc_disable c d self visits plane_list disable_ret).2.trace
        = (nx_drm_crtc_dpms c d DRM_MODE_DPMS_OFF).2.trace ++ added ∧
      added.filterMap Call.disabled_plane =
        (plane_list.filter (fun p => visits p && decide (p.crtc = some self))).map
          (fun p => p.id) ∧
      ∀ call ∈ added, (∃ p, call = Call.disable_plane p) ∨
        (∃ r, call = Call.DRM_ERROR_disable_plane r) := by
  refine ⟨dpms_off_sets_off c d, ?_⟩
  exact disable_planes_loop_spec visits self disable_ret plane_list
    (nx_drm_crtc_dpms c d DRM_MODE_DPMS_OFF).2

/-! ### The DPMS mode of a CRTC -/

theorem parse_dt_keeps_dpms_mode (port_by_id : Int → Option port_props) (c : nx_drm_crtc)
    (pipe : Int) : (nx_drm_crtc_parse_dt port_by_id c pipe).2.dpms_mode = c.dpms_mode := by
  cases h : port_by_id pipe <;> simp [nx_drm_crtc_parse_dt, h]

theorem create_planes_body_keeps (pipe PLANE_VIDEO_NUM plane_ret crtc_ret : Int)
    (s : planes_state) (i : Nat) :
    (planes_exit_state (nx_drm_crtc_create_planes_body pipe PLANE_VIDEO_NUM plane_ret
        crtc_ret s i)).crtc.dpms_mode = s.crtc.dpms_mode ∧
    (planes_exit_state (nx_drm_crtc_create_planes_body pipe PLANE_VIDEO_NUM plane_ret
        crtc_ret s i)).dev.crtc_objs = s.dev.crtc_objs := by
  simp only [nx_drm_crtc_create_planes_body]
  split_ifs <;> simp [planes_exit_state, drm_device.log]

theorem create_planes_loop_keeps (pipe PLANE_VIDEO_NUM : Int) (plane_ret crtc_ret : Nat → Int)
    (slots : List Nat) :
    ∀ s : planes_state,
      (planes_exit_state (nx_drm_crtc_create_planes_loop pipe PLANE_VIDEO_NUM plane_ret
          crtc_ret slots s)).crtc.dpms_mode = s.crtc.dpms_mode ∧
      (planes_exit_state (nx_drm_crtc_create_planes_loop pipe PLANE_VIDEO_NUM plane_ret
          crtc_ret slots s)).dev.crtc_objs = s.dev.crtc_objs := by
  induction slots with
  | nil => intro s; exact ⟨rfl, rfl⟩
  | cons i rest ih =>
    intro s
    have hb := create_planes_body_keeps pipe PLANE_VIDEO_NUM (plane_ret i) (crtc_ret i) s i
    cases hr : nx_drm_crtc_create_planes_body pipe PLANE_VIDEO_NUM (plane_ret i)
        (crtc_ret i) s i with
    | error e =>
      rw [hr] at hb
      simp only [nx_drm_crtc_create_planes_loop, hr]
      exact hb
    | ok s1 =>
      rw [hr] at hb
      simp only [nx_drm_crtc_create_planes_loop, hr]
      obtain ⟨h1, h2⟩ := ih s1
      exact ⟨h1.trans hb.1, h2.trans hb.2⟩

theorem destroy_planes_keeps_objs (pipe : Int) (planes : Nat → Option Nat)
    (slots : List Nat) :
    ∀ d : drm_device,
      (nx_drm_crtc_destroy_planes pipe planes slots d).crtc_objs = d.crtc_objs := by
  induction slots with
  | nil => intro d; rfl
  | cons i rest ih =>
    intro d
    cases hp : planes i with
    | none => simp only [nx_drm_crtc_destroy_planes, hp]; exact ih d
    | some p =>
      simp only [nx_drm_crtc_destroy_planes, hp]
      rw [ih]
      rfl

theorem create_planes_keeps (c : nx_drm_crtc) (d : drm_device) (pipe PLANE_VIDEO_NUM : Int)
    (plane_ret crtc_ret : Nat → Int) :
    (nx_drm_crtc_create_planes c d pipe PLANE_VIDEO_NUM plane_ret crtc_ret).2.1.dpms_mode
      = c.dpms_mode ∧
    (nx_drm_crtc_create_planes c d pipe PLANE_VIDEO_NUM plane_ret crtc_ret).2.2.crtc_objs
      = d.crtc_objs := by
  have hl := create_planes_loop_keeps pipe PLANE_VIDEO_NUM plane_ret crtc_ret
    (List.range c.top.num_planes.toNat) ⟨c, d, fun _ => none, 0⟩
  cases hr : nx_drm_crtc_create_planes_loop pipe PLANE_VIDEO_NUM plane_ret crtc_ret
      (List.range c.top.num_planes.toNat) ⟨c, d, fun _ => none, 0⟩ with
  | error e =>
    rw [hr] at hl
    simp only [nx_drm_crtc_create_planes, hr]
    refine ⟨hl.1, ?_⟩
    rw [destroy_planes_keeps_objs]
    exact hl.2
  | ok s1 =>
    rw [hr] at hl
    simp only [nx_drm_crtc_create_planes, hr]
    exact ⟨hl.1, hl.2⟩

theorem list_set_last {α : Type} (l : List α) (a b : α) :
    (l ++ [a]).set l.length b = l ++ [b] := by
  induction l with
  | nil => rfl
  | cons x xs ih => simp [List.set, ih]

theorem init_body_creates_off (tree : of_tree) (PLANE_VIDEO_NUM : Int)
    (plane_ret crtc_ret : Nat → Int) (pipes : Nat → Int) (s : init_state) (i : Nat) :
    ∃ created,
      (nx_drm_crtc_init_body tree PLANE_VIDEO_NUM plane_ret crtc_ret pipes s i).2.dev.crtc_objs
        = s.dev.crtc_objs ++ [created] ∧
      created.dpms_mode = DRM_MODE_DPMS_OFF := by
  let c1 : nx_drm_crtc := { kzalloc_nx_drm_crtc with
    pipe := pipes i, pipe_irq := s.dev.priv.hw_irq_no (pipes i),
    dpms_mode := DRM_MODE_DPMS_OFF }
  let r := nx_drm_crtc_parse_dt tree.port_by_id c1 (pipes i)
  let d2 : drm_device := { s.dev with
    crtc_objs := s.dev.crtc_objs ++ [kzalloc_nx_drm_crtc],
    priv := { s.dev.priv with
      crtcs := arr_set_int s.dev.priv.crtcs (i : Int) (some s.dev.crtc_objs.length),
      num_crtcs := s.dev.priv.num_crtcs + 1 } }
  let d3 : drm_device := d2.log (Call.nx_drm_dp_crtc_init (pipes i))
  let q := nx_drm_crtc_create_planes r.2 d3 (pipes i) PLANE_VIDEO_NUM plane_ret crtc_ret
  have hbody : nx_drm_crtc_init_body tree PLANE_VIDEO_NUM plane_ret crtc_ret pipes s i =
      if 0 > r.1 then (init_exit.ret r.1, { s with dev := d2.store s.dev.crtc_objs.length r.2 })
      else if 0 > q.1 then
        (init_exit.err_crtc q.1, { s with dev := q.2.2.store s.dev.crtc_objs.length q.2.1 })
      else (init_exit.next, { dev := q.2.2.store s.dev.crtc_objs.length q.2.1,
                              nx_crtcs := arr_set s.nx_crtcs i (some s.dev.crtc_objs.length) }) :=
    rfl
  have hr : r.2.dpms_mode = DRM_MODE_DPMS_OFF :=
    parse_dt_keeps_dpms_mode tree.port_by_id c1 (pipes i)
  have hq := create_planes_keeps r.2 d3 (pipes i) PLANE_VIDEO_NUM plane_ret crtc_ret
  have hd3 : d3.crtc_objs = s.dev.crtc_objs ++ [kzalloc_nx_drm_crtc] := rfl
  have hstore : (q.2.2.store s.dev.crtc_objs.length q.2.1).crtc_objs
      = s.dev.crtc_objs ++ [q.2.1] := by
    show q.2.2.crtc_objs.set s.dev.crtc_objs.length q.2.1 = _
    rw [hq.2, hd3]
    exact list_set_last _ _ _
  rw [hbody]
  split_ifs with h1 h2
  · exact ⟨r.2, list_set_last _ _ _, hr⟩
  · exact ⟨q.2.1, hstore, hq.1.trans hr⟩
  · exact ⟨q.2.1, hstore, hq.1.trans hr⟩

theorem init_loop_creates_off (tree : of_tree) (PLANE_VIDEO_NUM : Int)
    (plane_ret crtc_ret : Nat → Nat → Int) (pipes : Nat → Int) (idx : List Nat) :
    ∀ s : init_state, ∃ created,
      (nx_drm_crtc_init_loop tree PLANE_VIDEO_NUM plane_ret crtc_ret pipes idx s).2.dev.crtc_objs
        = s.dev.crtc_objs ++ created ∧
      ∀ c ∈ created, c.dpms_mode = DRM_MODE_DPMS_OFF := by
  induction idx with
  | nil =>
    intro s
    exact ⟨[], by simp [nx_drm_crtc_init_loop], by simp⟩
  | cons i rest ih =>
    intro s
    obtain ⟨c1, hb, hoff⟩ := init_body_creates_off tree PLANE_VIDEO_NUM (plane_ret i)
      (crtc_ret i) pipes s i
    cases hr : nx_drm_crtc_init_body tree PLANE_VIDEO_NUM (plane_ret i) (crtc_ret i)
        pipes s i with
    | mk e s1 =>
      rw [hr] at hb
      simp only at hb
      cases e with
      | next =>
        obtain ⟨created, h1, h2⟩ := ih s1
        refine ⟨c1 :: created, ?_, ?_⟩
        · simp only [nx_drm_crtc_init_loop, hr]
          rw [h1, hb]
          simp
        · intro c hc
          rcases List.mem_cons.mp hc with e1 | e1
          · rw [e1]; exact hoff
          · exact h2 c e1
      | ret r =>
        refine ⟨[c1], ?_, ?_⟩
        · simp only [nx_drm_crtc_init_loop, hr]
          exact hb
        · intro c hc
          simp only [List.mem_singleton] at hc
          rw [hc]; exact hoff
      | err_crtc r =>
        refine ⟨[c1], ?_, ?_⟩
        · simp only [nx_drm_crtc_init_loop, hr]
          exact hb
        · intro c hc
          simp only [List.mem_singleton] at hc
          rw [hc]; exact hoff

theorem init_free_keeps_objs (nx_crtcs : Nat → Option Nat) (idx : List Nat) :
    ∀ d : drm_device, (nx_drm_crtc_init_free nx_crtcs idx d).crtc_objs = d.crtc_objs := by
  induction idx with
  | nil => intro d; rfl
  | cons i rest ih =>
    intro d
    cases hp : nx_crtcs i with
    | none => simp only [nx_drm_crtc_init_free, hp]; exact ih d
    | some h =>
      simp only [nx_drm_crtc_init_free, hp]
      rw [ih]
      rfl

theorem init_creates_off (tree : of_tree) (PLANE_VIDEO_NUM : Int)
    (plane_ret crtc_ret : Nat → Nat → Int) (d : drm_device) :
    ∃ created,
      (nx_drm_crtc_init tree PLANE_VIDEO_NUM plane_ret crtc_ret d).2.crtc_objs
        = d.crtc_objs ++ created ∧
      ∀ c ∈ created, c.dpms_mode = DRM_MODE_DPMS_OFF := by
  obtain ⟨created, h1, h2⟩ := init_loop_creates_off tree PLANE_VIDEO_NUM plane_ret crtc_ret
    (__of_graph_get_port_num_index tree (fun _ => 0) 10).1
    (List.range (__of_graph_get_port_num_index tree (fun _ => 0) 10).2.toNat)
    ⟨d, fun _ => none⟩
  refine ⟨created, ?_, h2⟩
  simp only [nx_drm_crtc_init]
  cases hr : nx_drm_crtc_init_loop tree PLANE_VIDEO_NUM plane_ret crtc_ret
      (__of_graph_get_port_num_index tree (fun _ => 0) 10).1
      (List.range (__of_graph_get_port_num_index tree (fun _ => 0) 10).2.toNat)
      ⟨d, fun _ => none⟩ with
  | mk e s1 =>
    rw [hr] at h1
    simp only at h1
    cases e with
    | next => exact h1
    | ret r => exact h1
    | err_crtc r =>
      simp only
      rw [init_free_keeps_objs]
      exact h1

theorem dpms_result_mode (c : nx_drm_crtc) (d : drm_device) (m : Int) :
    (nx_drm_crtc_dpms c d m).1.dpms_mode = c.dpms_mode ∨
    ((nx_drm_crtc_dpms c d m).1.dpms_mode = m ∧ dpms_mode_recognized m) := by
  unfold nx_drm_crtc_dpms
  split_ifs with h1 h2 h3
  · exact Or.inl rfl
  · exact Or.inr ⟨rfl, Or.inl h2⟩
  · exact Or.inr ⟨rfl, Or.inr h3⟩
  · exact Or.inl rfl

theorem dpms_keeps_recognized (c : nx_drm_crtc) (d : drm_device) (m : Int)
    (h : dpms_mode_recognized c.dpms_mode) :
    dpms_mode_recognized (nx_drm_crtc_dpms c d m).1.dpms_mode := by
  rcases dpms_result_mode c d m with e | ⟨e, hm⟩
  · rw [e]; exact h
  · rw [e]; exact hm

theorem mode_set_keeps_dpms_mode (c : nx_drm_crtc) (d : drm_device)
    (adjusted_mode : drm_display_mode) (x y be_ret : Int) (r : Int × nx_drm_crtc × drm_device)
    (h : nx_drm_crtc_mode_set c d adjusted_mode x y be_ret = some r) :
    r.2.1.dpms_mode = c.dpms_mode := by
  unfold nx_drm_crtc_mode_set at h
  cases hfb : c.primary_fb with
  | none => simp [hfb] at h
  | some fb =>
    simp only [hfb, Option.some.injEq] at h
    rw [← h]

theorem mode_set_base_keeps_dpms_mode (c : nx_drm_crtc) (d : drm_device) (x y be_ret : Int)
    (r : Int × nx_drm_crtc × drm_device)
    (h : nx_drm_crtc_mode_set_base c d x y be_ret = some r) :
    r.2.1.dpms_mode = c.dpms_mode := by
  unfold nx_drm_crtc_mode_set_base at h
  split_ifs at h with hgt
  · simp only [Option.some.injEq] at h
    rw [← h]
  · cases hfb : c.primary_fb with
    | none => simp [hfb] at h
    | some fb =>
      simp only [hfb, Option.some.injEq] at h
      rw [← h]

theorem page_flip_keeps_dpms_mode (c : nx_drm_crtc) (d : drm_device) (fb : drm_framebuffer)
    (event : Option drm_pending_vblank_event) (vblank_ret be_ret : Int) :
    (nx_drm_crtc_page_flip c d fb event vblank_ret be_ret).crtc.dpms_mode = c.dpms_mode := by
  unfold nx_drm_crtc_page_flip
  cases event with
  | none => simp only []; split_ifs <;> rfl
  | some ev => simp only []; split_ifs <;> rfl

theorem commit_sets_on (c : nx_drm_crtc) (d : drm_device) :
    (nx_drm_crtc_commit c d).1.dpms_mode = DRM_MODE_DPMS_ON := by
  by_cases h : c.dpms_mode = DRM_MODE_DPMS_ON
  · simp [nx_drm_crtc_commit, h]
  · simp [nx_drm_crtc_commit, nx_drm_crtc_dpms, h]

theorem reachable_dpms_mode_recognized (c0 c : nx_drm_crtc)
    (h0 : c0.dpms_mode = DRM_MODE_DPMS_OFF) (h : crtc_reachable c0 c) :
    dpms_mode_recognized c.dpms_mode := by
  induction h with
  | start => exact Or.inr (Or.inr (Or.inr h0))
  | dpms c d mode _ ih => exact dpms_keeps_recognized c d mode ih
  | commit c d _ _ => exact Or.inl (commit_sets_on c d)
  | mode_set c d adjusted_mode x y be_ret r _ hr ih =>
    rw [mode_set_keeps_dpms_mode c d adjusted_mode x y be_ret r hr]
    exact ih
  | mode_set_base c d x y be_ret r _ hr ih =>
    rw [mode_set_base_keeps_dpms_mode c d x y be_ret r hr]
    exact ih
  | page_flip c d fb event vblank_ret be_ret _ ih =>
    rw [page_flip_keeps_dpms_mode]
    exact ih
  | disable c d self visits plane_list disable_ret _ _ =>
    exact Or.inr (Or.inr (Or.inr (dpms_off_sets_off c d)))
  | other c c1 _ he ih =>
    rw [he]
    exact ih

/-- C20 (`dpms_mode` invariant): every CRTC object that `nx_drm_crtc_init` allocates has
`dpms_mode` OFF when Init returns; in every state reachable from a CRTC that is OFF by
any sequence of DPMS (with any integer mode), Commit, ModeSet, ModeSetBase, PageFlip and
Disable calls, `dpms_mode` is one of ON, STANDBY, SUSPEND, OFF; and ModeSet, ModeSetBase
and PageFlip leave `dpms_mode` as it was. -/
theorem dpms_mode_invariant :
    (∀ (tree : of_tree) (PLANE_VIDEO_NUM : Int) (plane_ret crtc_ret : Nat → Nat → Int)
      (d : drm_device), ∃ created,
        (nx_drm_crtc_init tree PLANE_VIDEO_NUM plane_ret crtc_ret d).2.crtc_objs
          = d.crtc_objs ++ created ∧
        ∀ c ∈ created, c.dpms_mode = DRM_MODE_DPMS_OFF) ∧
    (∀ c0 c : nx_drm_crtc, c0.dpms_mode = DRM_MODE_DPMS_OFF → crtc_reachable c0 c →
      c.dpms_mode = DRM_MODE_DPMS_ON ∨ c.dpms_mode = DRM_MODE_DPMS_STANDBY ∨
        c.dpms_mode = DRM_MODE_DPMS_SUSPEND ∨ c.dpms_mode = DRM_MODE_DPMS_OFF) ∧
    (∀ (c : nx_drm_crtc) (d : drm_device) (adjusted_mode : drm_display_mode)
      (x y be_ret : Int) (r : Int × nx_drm_crtc × drm_device),
      nx_drm_crtc_mode_set c d adjusted_mode x y be_ret = some r →
      r.2.1.dpms_mode = c.dpms_mode) ∧
    (∀ (c : nx_drm_crtc) (d : drm_device) (x y be_ret : Int)
      (r : Int × nx_drm_crtc × drm_device),
      nx_drm_crtc_mode_set_base c d x y be_ret = some r → r.2.1.dpms_mode = c.dpms_mode) ∧
    (∀ (c : nx_drm_crtc) (d : drm_device) (fb : drm_framebuffer)
      (event : Option drm_pending_vblank_event) (vblank_ret be_ret : Int),
      (nx_drm_crtc_page_flip c d fb event vblank_ret be_ret).crtc.dpms_mode = c.dpms_mode) :=
  ⟨init_creates_off, reachable_dpms_mode_recognized, mode_set_keeps_dpms_mode,
   mode_set_base_keeps_dpms_mode, page_flip_keeps_dpms_mode⟩

/-- Witness of C20: from a CRTC that is OFF, a DPMS request with the unrecognized mode 7
followed by a commit reaches a CRTC in a recognized mode; and a mode-set on a CRTC in
STANDBY leaves it in STANDBY. -/
theorem dpms_mode_invariant_witness :
    ((nx_drm_crtc_commit (nx_drm_crtc_dpms (crtc_in DRM_MODE_DPMS_OFF) dev0 7).1
        dev0).1.dpms_mode = DRM_MODE_DPMS_ON ∨
      (nx_drm_crtc_commit (nx_drm_crtc_dpms (crtc_in DRM_MODE_DPMS_OFF) dev0 7).1
        dev0).1.dpms_mode = DRM_MODE_DPMS_STANDBY ∨
      (nx_drm_crtc_commit (nx_drm_crtc_dpms (crtc_in DRM_MODE_DPMS_OFF) dev0 7).1
        dev0).1.dpms_mode = DRM_MODE_DPMS_SUSPEND ∨
      (nx_drm_crtc_commit (nx_drm_crtc_dpms (crtc_in DRM_MODE_DPMS_OFF) dev0 7).1
        dev0).1.dpms_mode = DRM_MODE_DPMS_OFF) ∧
    (0, { crtc_in DRM_MODE_DPMS_STANDBY with mode := mode0 },
      dev0.log (Call.nx_drm_dp_crtc_mode_set 0 fb800 0 0 750 500 50 100 750 500)).2.1.dpms_mode
      = (crtc_in DRM_MODE_DPMS_STANDBY).dpms_mode :=
  ⟨dpms_mode_invariant.2.1 (crtc_in DRM_MODE_DPMS_OFF) _ rfl
      (crtc_reachable.commit _ dev0
        (crtc_reachable.dpms _ dev0 7 crtc_reachable.start)),
   dpms_mode_invariant.2.2.1 (crtc_in DRM_MODE_DPMS_STANDBY) dev0 mode0 50 100 0 _ rfl⟩

end NxDrm
